import Mathlib

/-!
Verification of the ComparaInvest projection engine.

The definitions below are a shallow embedding of the pure computational core
of `src/App.tsx` (the functions `getTaxRate`, `annualToMonthlyCompound`,
`monthlyToAnnualCompound`, `monthlyToAnnualSimple` and `calculateSimulations`
together with its local helpers `calculatePercentOfCDI`, `calculateGrossUp`,
`calculateWithMonthlyPayout` and `calculateCompoundEvolution`).  JavaScript
floating-point numbers are idealized as real numbers; `Math.pow` with an
integer exponent becomes `Monoid.npow` and with a fractional exponent becomes
`Real.rpow`.  The display-name strings built in the source are omitted (they
carry no numeric content).  `Array.prototype.sort` with the comparator
`(a, b) => b.netTotal - a.netTotal` is modelled as a stable insertion sort in
descending net-total order, matching the ECMAScript stable-sort guarantee.
-/

namespace ComparaInvest

noncomputable section

inductive InvestmentType where
  | fund
  | cdb
  | lci
  | poupanca
  | comparison
deriving DecidableEq

structure MonthlyDetail where
  month : ℕ
  principal : ℝ
  grossProfit : ℝ
  taxRate : ℝ
  taxAmount : ℝ
  netProfit : ℝ
  accumulated : ℝ

structure EvolutionPoint where
  month : ℕ
  value : ℝ

structure SimulationParams where
  principal : ℝ
  months : ℕ
  cdiAnnual : ℝ
  ipcaAnnual : ℝ
  fundRateMonthly : ℝ
  cdbPercentOfCDI : ℝ
  lciPercentOfCDI : ℝ
  preFixedAnnual : ℝ
  ipcaPlusAnnual : ℝ
  comparisonFund12MonthReturn : ℝ
  globalPayoutMonthly : Bool

structure SimulationResult where
  type : InvestmentType
  grossTotal : ℝ
  taxAmount : ℝ
  taxRate : ℝ
  netTotal : ℝ
  netReturnPercent : ℝ
  monthlyReturnPercentOfCDI : ℝ
  monthlyPayoutGross : ℝ
  monthlyPayoutNet : ℝ
  monthlyRateGross : ℝ
  monthlyRateNet : ℝ
  annualRateGross : ℝ
  annualRateNet : ℝ
  grossUp : ℝ
  isUserFund : Bool
  monthlyDetails : List MonthlyDetail
  evolutionData : List EvolutionPoint

/-- `annualToMonthlyCompound` from the source: `(1 + a/100) ** (1/12) - 1`. -/
noncomputable def annualToMonthlyCompound (annualRate : ℝ) : ℝ :=
  (1 + annualRate / 100) ^ ((1 : ℝ) / 12) - 1

/-- `monthlyToAnnualCompound` from the source: `((1 + m) ** 12 - 1) * 100`. -/
def monthlyToAnnualCompound (monthlyRate : ℝ) : ℝ :=
  ((1 + monthlyRate) ^ (12 : ℕ) - 1) * 100

/-- `monthlyToAnnualSimple` from the source: `m * 12 * 100`. -/
def monthlyToAnnualSimple (monthlyRate : ℝ) : ℝ :=
  monthlyRate * 12 * 100

/-- `getTaxRate` from the source: the regressive withholding-tax bracket
for a number of elapsed days. -/
def getTaxRate (days : ℕ) : ℝ :=
  if days ≤ 180 then 0.225
  else if days ≤ 360 then 0.20
  else if days ≤ 720 then 0.175
  else 0.15

/-- The local helper `calculatePercentOfCDI` of `calculateSimulations`;
the source closure captures `cdiAnnual`, here passed explicitly. -/
noncomputable def calculatePercentOfCDI (cdiAnnual annualRateGross : ℝ) : ℝ :=
  if cdiAnnual = 0 then 0 else annualRateGross / cdiAnnual * 100

/-- The local helper `calculateGrossUp` of `calculateSimulations`;
the source closure captures `periodTaxRate`, here passed explicitly. -/
def calculateGrossUp (periodTaxRate exemptPercentOfCDI : ℝ) : ℝ :=
  exemptPercentOfCDI / (1 - periodTaxRate)

/-- The per-month tax rate used inside `calculateWithMonthlyPayout`:
`hasTax ? getTaxRate(days) : 0`. -/
def monthTaxRate (hasTax : Bool) (days : ℕ) : ℝ :=
  if hasTax then getTaxRate days else 0

/-- The mutable accumulators and arrays of the `for` loop of
`calculateWithMonthlyPayout`. -/
structure PayoutState where
  totalGrossProfit : ℝ
  totalTax : ℝ
  totalNetProfit : ℝ
  details : List MonthlyDetail
  evolution : List EvolutionPoint

/-- The `for (let month = 1; month <= months; month++)` loop of
`calculateWithMonthlyPayout`, expressed as a recursion on the number of
completed iterations. -/
def payoutLoop (principal monthlyRate : ℝ) (hasTax : Bool) : ℕ → PayoutState
  | 0 => ⟨0, 0, 0, [], [⟨0, principal⟩]⟩
  | n + 1 =>
    let s := payoutLoop principal monthlyRate hasTax n
    let month := n + 1
    let mtr := monthTaxRate hasTax (month * 30)
    let grossProfit := principal * monthlyRate
    let taxAmount := grossProfit * mtr
    let netProfit := grossProfit - taxAmount
    { totalGrossProfit := s.totalGrossProfit + grossProfit
      totalTax := s.totalTax + taxAmount
      totalNetProfit := s.totalNetProfit + netProfit
      details := s.details ++
        [⟨month, principal, grossProfit, mtr * 100, taxAmount, netProfit,
          s.totalNetProfit + netProfit⟩]
      evolution := s.evolution ++ [⟨month, principal + (s.totalNetProfit + netProfit)⟩] }

/-- The record returned by `calculateWithMonthlyPayout`. -/
structure PayoutResult where
  grossTotal : ℝ
  netTotal : ℝ
  totalTax : ℝ
  monthlyPayoutGross : ℝ
  details : List MonthlyDetail
  evolution : List EvolutionPoint

/-- `calculateWithMonthlyPayout` from the source (distributed strategy). -/
def calculateWithMonthlyPayout (principal monthlyRate : ℝ) (hasTax : Bool)
    (months : ℕ) : PayoutResult :=
  let s := payoutLoop principal monthlyRate hasTax months
  ⟨principal + s.totalGrossProfit, principal + s.totalNetProfit, s.totalTax,
    principal * monthlyRate, s.details, s.evolution⟩

/-- One iteration of the loop of `calculateCompoundEvolution`: the chart
point for a given month. -/
def compoundPoint (principal monthlyRate : ℝ) (hasTax : Bool) (month : ℕ) :
    EvolutionPoint :=
  let gross := principal * (1 + monthlyRate) ^ month
  let profit := gross - principal
  let tax := if hasTax then profit * getTaxRate (month * 30) else 0
  ⟨month, gross - tax⟩

/-- `calculateCompoundEvolution` from the source: the initial
month-0 point with value `principal` followed by one point per month 1..N. -/
def calculateCompoundEvolution (principal monthlyRate : ℝ) (hasTax : Bool)
    (months : ℕ) : List EvolutionPoint :=
  ⟨0, principal⟩ ::
    (List.range months).map (fun i => compoundPoint principal monthlyRate hasTax (i + 1))

/-- The back-solved effective net monthly rate, written inline in the source
as `Math.pow(netTotal / principal, 1 / months) - 1`. -/
noncomputable def netMonthlyRateOf (netTotal principal : ℝ) (months : ℕ) : ℝ :=
  (netTotal / principal) ^ ((1 : ℝ) / (months : ℝ)) - 1

/-- Section "1. Fundo do Usuário" of `calculateSimulations`: the entry pushed
for the user's own fund. -/
def fundEntry (p : SimulationParams) : SimulationResult :=
  let fundMonthlyRate := p.fundRateMonthly / 100
  let periodTaxRate := getTaxRate (p.months * 30)
  let fundAnnualForCDI := monthlyToAnnualCompound fundMonthlyRate
  if p.globalPayoutMonthly then
    let fundResult := calculateWithMonthlyPayout p.principal fundMonthlyRate true p.months
    let fundNetMonthlyRate := netMonthlyRateOf fundResult.netTotal p.principal p.months
    { type := InvestmentType.fund
      grossTotal := fundResult.grossTotal
      taxAmount := fundResult.totalTax
      taxRate := periodTaxRate * 100
      netTotal := fundResult.netTotal
      netReturnPercent := (fundResult.netTotal - p.principal) / p.principal * 100
      monthlyReturnPercentOfCDI := calculatePercentOfCDI p.cdiAnnual fundAnnualForCDI
      monthlyPayoutGross := fundResult.monthlyPayoutGross
      monthlyPayoutNet := (fundResult.netTotal - p.principal) / (p.months : ℝ)
      monthlyRateGross := fundMonthlyRate * 100
      monthlyRateNet := fundNetMonthlyRate * 100
      annualRateGross := monthlyToAnnualSimple fundMonthlyRate
      annualRateNet := monthlyToAnnualSimple fundNetMonthlyRate
      grossUp := 0
      isUserFund := true
      monthlyDetails := fundResult.details
      evolutionData := fundResult.evolution }
  else
    let fundGross := p.principal * (1 + fundMonthlyRate) ^ p.months
    let fundProfit := fundGross - p.principal
    let fundTax := fundProfit * periodTaxRate
    let fundNetTotal := fundGross - fundTax
    let fundNetMonthlyRate := netMonthlyRateOf fundNetTotal p.principal p.months
    { type := InvestmentType.fund
      grossTotal := fundGross
      taxAmount := fundTax
      taxRate := periodTaxRate * 100
      netTotal := fundNetTotal
      netReturnPercent := (fundNetTotal - p.principal) / p.principal * 100
      monthlyReturnPercentOfCDI := calculatePercentOfCDI p.cdiAnnual fundAnnualForCDI
      monthlyPayoutGross := 0
      monthlyPayoutNet := 0
      monthlyRateGross := fundMonthlyRate * 100
      monthlyRateNet := fundNetMonthlyRate * 100
      annualRateGross := monthlyToAnnualCompound fundMonthlyRate
      annualRateNet := monthlyToAnnualCompound fundNetMonthlyRate
      grossUp := 0
      isUserFund := true
      monthlyDetails := []
      evolutionData := calculateCompoundEvolution p.principal fundMonthlyRate true p.months }

/-- Section "2. CDB" of `calculateSimulations`. -/
def cdbEntry (p : SimulationParams) : SimulationResult :=
  let cdiMonthly := annualToMonthlyCompound p.cdiAnnual
  let cdbMonthly := cdiMonthly * (p.cdbPercentOfCDI / 100)
  let periodTaxRate := getTaxRate (p.months * 30)
  let cdbAnnualGross := monthlyToAnnualCompound cdbMonthly
  if p.globalPayoutMonthly then
    let cdbResult := calculateWithMonthlyPayout p.principal cdbMonthly true p.months
    let cdbNetMonthlyRate := netMonthlyRateOf cdbResult.netTotal p.principal p.months
    { type := InvestmentType.cdb
      grossTotal := cdbResult.grossTotal
      taxAmount := cdbResult.totalTax
      taxRate := periodTaxRate * 100
      netTotal := cdbResult.netTotal
      netReturnPercent := (cdbResult.netTotal - p.principal) / p.principal * 100
      monthlyReturnPercentOfCDI := p.cdbPercentOfCDI
      monthlyPayoutGross := cdbResult.monthlyPayoutGross
      monthlyPayoutNet := (cdbResult.netTotal - p.principal) / (p.months : ℝ)
      monthlyRateGross := cdbMonthly * 100
      monthlyRateNet := cdbNetMonthlyRate * 100
      annualRateGross := cdbAnnualGross
      annualRateNet := monthlyToAnnualCompound cdbNetMonthlyRate
      grossUp := 0
      isUserFund := false
      monthlyDetails := cdbResult.details
      evolutionData := cdbResult.evolution }
  else
    let cdbGross := p.principal * (1 + cdbMonthly) ^ p.months
    let cdbProfit := cdbGross - p.principal
    let cdbTax := cdbProfit * periodTaxRate
    let cdbNetTotal := cdbGross - cdbTax
    let cdbNetMonthlyRate := netMonthlyRateOf cdbNetTotal p.principal p.months
    { type := InvestmentType.cdb
      grossTotal := cdbGross
      taxAmount := cdbTax
      taxRate := periodTaxRate * 100
      netTotal := cdbNetTotal
      netReturnPercent := (cdbNetTotal - p.principal) / p.principal * 100
      monthlyReturnPercentOfCDI := p.cdbPercentOfCDI
      monthlyPayoutGross := 0
      monthlyPayoutNet := 0
      monthlyRateGross := cdbMonthly * 100
      monthlyRateNet := cdbNetMonthlyRate * 100
      annualRateGross := cdbAnnualGross
      annualRateNet := monthlyToAnnualCompound cdbNetMonthlyRate
      grossUp := 0
      isUserFund := false
      monthlyDetails := []
      evolutionData := calculateCompoundEvolution p.principal cdbMonthly true p.months }

/-- Section "3. LCI" of `calculateSimulations` (tax exempt). -/
def lciEntry (p : SimulationParams) : SimulationResult :=
  let cdiMonthly := annualToMonthlyCompound p.cdiAnnual
  let lciMonthly := cdiMonthly * (p.lciPercentOfCDI / 100)
  let periodTaxRate := getTaxRate (p.months * 30)
  let lciAnnualGross := monthlyToAnnualCompound lciMonthly
  let lciGrossUp := calculateGrossUp periodTaxRate p.lciPercentOfCDI
  if p.globalPayoutMonthly then
    let lciResult := calculateWithMonthlyPayout p.principal lciMonthly false p.months
    { type := InvestmentType.lci
      grossTotal := lciResult.grossTotal
      taxAmount := 0
      taxRate := 0
      netTotal := lciResult.netTotal
      netReturnPercent := (lciResult.netTotal - p.principal) / p.principal * 100
      monthlyReturnPercentOfCDI := p.lciPercentOfCDI
      monthlyPayoutGross := lciResult.monthlyPayoutGross
      monthlyPayoutNet := (lciResult.netTotal - p.principal) / (p.months : ℝ)
      monthlyRateGross := lciMonthly * 100
      monthlyRateNet := lciMonthly * 100
      annualRateGross := lciAnnualGross
      annualRateNet := lciAnnualGross
      grossUp := lciGrossUp
      isUserFund := false
      monthlyDetails := lciResult.details
      evolutionData := lciResult.evolution }
  else
    let lciGross := p.principal * (1 + lciMonthly) ^ p.months
    { type := InvestmentType.lci
      grossTotal := lciGross
      taxAmount := 0
      taxRate := 0
      netTotal := lciGross
      netReturnPercent := (lciGross - p.principal) / p.principal * 100
      monthlyReturnPercentOfCDI := p.lciPercentOfCDI
      monthlyPayoutGross := 0
      monthlyPayoutNet := 0
      monthlyRateGross := lciMonthly * 100
      monthlyRateNet := lciMonthly * 100
      annualRateGross := lciAnnualGross
      annualRateNet := lciAnnualGross
      grossUp := lciGrossUp
      isUserFund := false
      monthlyDetails := []
      evolutionData := calculateCompoundEvolution p.principal lciMonthly false p.months }

/-- Section "4. Pré-fixado" of `calculateSimulations`. -/
def preEntry (p : SimulationParams) : SimulationResult :=
  let preMonthly := annualToMonthlyCompound p.preFixedAnnual
  let periodTaxRate := getTaxRate (p.months * 30)
  if p.globalPayoutMonthly then
    let preResult := calculateWithMonthlyPayout p.principal preMonthly true p.months
    let preNetMonthlyRate := netMonthlyRateOf preResult.netTotal p.principal p.months
    { type := InvestmentType.cdb
      grossTotal := preResult.grossTotal
      taxAmount := preResult.totalTax
      taxRate := periodTaxRate * 100
      netTotal := preResult.netTotal
      netReturnPercent := (preResult.netTotal - p.principal) / p.principal * 100
      monthlyReturnPercentOfCDI := calculatePercentOfCDI p.cdiAnnual p.preFixedAnnual
      monthlyPayoutGross := preResult.monthlyPayoutGross
      monthlyPayoutNet := (preResult.netTotal - p.principal) / (p.months : ℝ)
      monthlyRateGross := preMonthly * 100
      monthlyRateNet := preNetMonthlyRate * 100
      annualRateGross := p.preFixedAnnual
      annualRateNet := monthlyToAnnualCompound preNetMonthlyRate
      grossUp := 0
      isUserFund := false
      monthlyDetails := preResult.details
      evolutionData := preResult.evolution }
  else
    let preGross := p.principal * (1 + preMonthly) ^ p.months
    let preProfit := preGross - p.principal
    let preTax := preProfit * periodTaxRate
    let preNetTotal := preGross - preTax
    let preNetMonthlyRate := netMonthlyRateOf preNetTotal p.principal p.months
    { type := InvestmentType.cdb
      grossTotal := preGross
      taxAmount := preTax
      taxRate := periodTaxRate * 100
      netTotal := preNetTotal
      netReturnPercent := (preNetTotal - p.principal) / p.principal * 100
      monthlyReturnPercentOfCDI := calculatePercentOfCDI p.cdiAnnual p.preFixedAnnual
      monthlyPayoutGross := 0
      monthlyPayoutNet := 0
      monthlyRateGross := preMonthly * 100
      monthlyRateNet := preNetMonthlyRate * 100
      annualRateGross := p.preFixedAnnual
      annualRateNet := monthlyToAnnualCompound preNetMonthlyRate
      grossUp := 0
      isUserFund := false
      monthlyDetails := []
      evolutionData := calculateCompoundEvolution p.principal preMonthly true p.months }

/-- Section "5. IPCA+" of `calculateSimulations`. -/
def ipcaEntry (p : SimulationParams) : SimulationResult :=
  let ipcaMonthly := annualToMonthlyCompound p.ipcaAnnual
  let spreadMonthly := p.ipcaPlusAnnual / 100 / 12
  let ipcaPlusMonthly := ipcaMonthly + spreadMonthly
  let periodTaxRate := getTaxRate (p.months * 30)
  let ipcaPlusAnnualGross := monthlyToAnnualCompound ipcaPlusMonthly
  if p.globalPayoutMonthly then
    let ipcaPlusResult := calculateWithMonthlyPayout p.principal ipcaPlusMonthly true p.months
    let ipcaPlusNetMonthlyRate := netMonthlyRateOf ipcaPlusResult.netTotal p.principal p.months
    { type := InvestmentType.cdb
      grossTotal := ipcaPlusResult.grossTotal
      taxAmount := ipcaPlusResult.totalTax
      taxRate := periodTaxRate * 100
      netTotal := ipcaPlusResult.netTotal
      netReturnPercent := (ipcaPlusResult.netTotal - p.principal) / p.principal * 100
      monthlyReturnPercentOfCDI := calculatePercentOfCDI p.cdiAnnual ipcaPlusAnnualGross
      monthlyPayoutGross := ipcaPlusResult.monthlyPayoutGross
      monthlyPayoutNet := (ipcaPlusResult.netTotal - p.principal) / (p.months : ℝ)
      monthlyRateGross := ipcaPlusMonthly * 100
      monthlyRateNet := ipcaPlusNetMonthlyRate * 100
      annualRateGross := ipcaPlusAnnualGross
      annualRateNet := monthlyToAnnualCompound ipcaPlusNetMonthlyRate
      grossUp := 0
      isUserFund := false
      monthlyDetails := ipcaPlusResult.details
      evolutionData := ipcaPlusResult.evolution }
  else
    let ipcaPlusGross := p.principal * (1 + ipcaPlusMonthly) ^ p.months
    let ipcaPlusProfit := ipcaPlusGross - p.principal
    let ipcaPlusTax := ipcaPlusProfit * periodTaxRate
    let ipcaPlusNetTotal := ipcaPlusGross - ipcaPlusTax
    let ipcaPlusNetMonthlyRate := netMonthlyRateOf ipcaPlusNetTotal p.principal p.months
    { type := InvestmentType.cdb
      grossTotal := ipcaPlusGross
      taxAmount := ipcaPlusTax
      taxRate := periodTaxRate * 100
      netTotal := ipcaPlusNetTotal
      netReturnPercent := (ipcaPlusNetTotal - p.principal) / p.principal * 100
      monthlyReturnPercentOfCDI := calculatePercentOfCDI p.cdiAnnual ipcaPlusAnnualGross
      monthlyPayoutGross := 0
      monthlyPayoutNet := 0
      monthlyRateGross := ipcaPlusMonthly * 100
      monthlyRateNet := ipcaPlusNetMonthlyRate * 100
      annualRateGross := ipcaPlusAnnualGross
      annualRateNet := monthlyToAnnualCompound ipcaPlusNetMonthlyRate
      grossUp := 0
      isUserFund := false
      monthlyDetails := []
      evolutionData := calculateCompoundEvolution p.principal ipcaPlusMonthly true p.months }

/-- Section "6. Fundo de Comparação" of `calculateSimulations` (pushed only
when the trailing 12-month return is positive). -/
def compEntry (p : SimulationParams) : SimulationResult :=
  let compMonthlyRate := (1 + p.comparisonFund12MonthReturn / 100) ^ ((1 : ℝ) / 12) - 1
  let periodTaxRate := getTaxRate (p.months * 30)
  let compAnnualGross := monthlyToAnnualCompound compMonthlyRate
  if p.globalPayoutMonthly then
    let compResult := calculateWithMonthlyPayout p.principal compMonthlyRate true p.months
    let compNetMonthlyRate := netMonthlyRateOf compResult.netTotal p.principal p.months
    { type := InvestmentType.comparison
      grossTotal := compResult.grossTotal
      taxAmount := compResult.totalTax
      taxRate := periodTaxRate * 100
      netTotal := compResult.netTotal
      netReturnPercent := (compResult.netTotal - p.principal) / p.principal * 100
      monthlyReturnPercentOfCDI := calculatePercentOfCDI p.cdiAnnual compAnnualGross
      monthlyPayoutGross := compResult.monthlyPayoutGross
      monthlyPayoutNet := (compResult.netTotal - p.principal) / (p.months : ℝ)
      monthlyRateGross := compMonthlyRate * 100
      monthlyRateNet := compNetMonthlyRate * 100
      annualRateGross := compAnnualGross
      annualRateNet := monthlyToAnnualCompound compNetMonthlyRate
      grossUp := 0
      isUserFund := false
      monthlyDetails := compResult.details
      evolutionData := compResult.evolution }
  else
    let compGross := p.principal * (1 + compMonthlyRate) ^ p.months
    let compProfit := compGross - p.principal
    let compTax := compProfit * periodTaxRate
    let compNetTotal := compGross - compTax
    let compNetMonthlyRate := netMonthlyRateOf compNetTotal p.principal p.months
    { type := InvestmentType.comparison
      grossTotal := compGross
      taxAmount := compTax
      taxRate := periodTaxRate * 100
      netTotal := compNetTotal
      netReturnPercent := (compNetTotal - p.principal) / p.principal * 100
      monthlyReturnPercentOfCDI := calculatePercentOfCDI p.cdiAnnual compAnnualGross
      monthlyPayoutGross := 0
      monthlyPayoutNet := 0
      monthlyRateGross := compMonthlyRate * 100
      monthlyRateNet := compNetMonthlyRate * 100
      annualRateGross := compAnnualGross
      annualRateNet := monthlyToAnnualCompound compNetMonthlyRate
      grossUp := 0
      isUserFund := false
      monthlyDetails := []
      evolutionData := calculateCompoundEvolution p.principal compMonthlyRate true p.months }

/-- Section "7. Poupança" of `calculateSimulations` (tax exempt, fixed
regulatory monthly rate 0.5% + 0.17%). -/
def poupEntry (p : SimulationParams) : SimulationResult :=
  let poupancaMonthly : ℝ := 0.005 + 0.0017
  let periodTaxRate := getTaxRate (p.months * 30)
  let poupancaAnnualGross := monthlyToAnnualCompound poupancaMonthly
  let poupancaGrossUp :=
    calculateGrossUp periodTaxRate (calculatePercentOfCDI p.cdiAnnual poupancaAnnualGross)
  if p.globalPayoutMonthly then
    let poupancaPayoutResult := calculateWithMonthlyPayout p.principal poupancaMonthly false p.months
    { type := InvestmentType.poupanca
      grossTotal := poupancaPayoutResult.grossTotal
      taxAmount := 0
      taxRate := 0
      netTotal := poupancaPayoutResult.grossTotal
      netReturnPercent := (poupancaPayoutResult.grossTotal - p.principal) / p.principal * 100
      monthlyReturnPercentOfCDI := calculatePercentOfCDI p.cdiAnnual poupancaAnnualGross
      monthlyPayoutGross := poupancaPayoutResult.monthlyPayoutGross
      monthlyPayoutNet := poupancaPayoutResult.monthlyPayoutGross
      monthlyRateGross := poupancaMonthly * 100
      monthlyRateNet := poupancaMonthly * 100
      annualRateGross := poupancaAnnualGross
      annualRateNet := poupancaAnnualGross
      grossUp := poupancaGrossUp
      isUserFund := false
      monthlyDetails := poupancaPayoutResult.details
      evolutionData := poupancaPayoutResult.evolution }
  else
    let poupancaGross := p.principal * (1 + poupancaMonthly) ^ p.months
    { type := InvestmentType.poupanca
      grossTotal := poupancaGross
      taxAmount := 0
      taxRate := 0
      netTotal := poupancaGross
      netReturnPercent := (poupancaGross - p.principal) / p.principal * 100
      monthlyReturnPercentOfCDI := calculatePercentOfCDI p.cdiAnnual poupancaAnnualGross
      monthlyPayoutGross := 0
      monthlyPayoutNet := 0
      monthlyRateGross := poupancaMonthly * 100
      monthlyRateNet := poupancaMonthly * 100
      annualRateGross := poupancaAnnualGross
      annualRateNet := poupancaAnnualGross
      grossUp := poupancaGrossUp
      isUserFund := false
      monthlyDetails := []
      evolutionData := calculateCompoundEvolution p.principal poupancaMonthly false p.months }

/-- The `results` array of `calculateSimulations` in push order, before the
final partition-and-sort. -/
def buildResults (p : SimulationParams) : List SimulationResult :=
  [fundEntry p, cdbEntry p, lciEntry p, preEntry p, ipcaEntry p] ++
    (if 0 < p.comparisonFund12MonthReturn then [compEntry p] else []) ++ [poupEntry p]

/-- Stable insertion of one result into a list kept in descending net-total
order: the new element goes after every existing element whose net total is
greater than or equal to its own. -/
def insertDesc (x : SimulationResult) : List SimulationResult → List SimulationResult
  | [] => [x]
  | h :: t => if x.netTotal ≤ h.netTotal then h :: insertDesc x t else x :: h :: t

/-- Stable sort in descending net-total order, modelling
`sort((a, b) => b.netTotal - a.netTotal)` on the non-user results. -/
def sortByNetTotalDesc (l : List SimulationResult) : List SimulationResult :=
  l.foldl (fun acc x => insertDesc x acc) []

/-- `calculateSimulations` from the source: build all entries, partition out
the user fund, sort the rest by net total descending, return
`[...userFund, ...otherFunds]`. -/
def calculateSimulations (p : SimulationParams) : List SimulationResult :=
  let results := buildResults p
  results.filter (fun r => r.isUserFund) ++
    sortByNetTotalDesc (results.filter (fun r => !r.isUserFund))

/-- Closed form of the net profit credited in a given month of the
distributed strategy. -/
def monthNetProfit (principal monthlyRate : ℝ) (hasTax : Bool) (m : ℕ) : ℝ :=
  principal * monthlyRate - principal * monthlyRate * monthTaxRate hasTax (m * 30)

/-- Closed form of the tax paid in a given month of the distributed strategy. -/
def monthTaxAmount (principal monthlyRate : ℝ) (hasTax : Bool) (m : ℕ) : ℝ :=
  principal * monthlyRate * monthTaxRate hasTax (m * 30)

/-- Cumulative net profit through month `m` of the distributed strategy. -/
def netProfitSum (principal monthlyRate : ℝ) (hasTax : Bool) (m : ℕ) : ℝ :=
  ∑ k ∈ Finset.range m, monthNetProfit principal monthlyRate hasTax (k + 1)

/-- Closed form of the detail row pushed for month `m` by the distributed
strategy. -/
def detailAt (principal monthlyRate : ℝ) (hasTax : Bool) (m : ℕ) : MonthlyDetail :=
  ⟨m, principal, principal * monthlyRate, monthTaxRate hasTax (m * 30) * 100,
    monthTaxAmount principal monthlyRate hasTax m,
    monthNetProfit principal monthlyRate hasTax m,
    netProfitSum principal monthlyRate hasTax m⟩

end

theorem payoutLoop_totalNetProfit (P r : ℝ) (hasTax : Bool) (n : ℕ) :
    (payoutLoop P r hasTax n).totalNetProfit = netProfitSum P r hasTax n := by
  induction n with
  | zero => simp [payoutLoop, netProfitSum]
  | succ k ih =>
    simp only [payoutLoop, ih, netProfitSum, Finset.sum_range_succ, monthNetProfit]

theorem payoutLoop_totalGrossProfit (P r : ℝ) (hasTax : Bool) (n : ℕ) :
    (payoutLoop P r hasTax n).totalGrossProfit = ∑ _k ∈ Finset.range n, P * r := by
  induction n with
  | zero => simp [payoutLoop]
  | succ k ih => simp only [payoutLoop, ih, Finset.sum_range_succ]

theorem payoutLoop_totalTax (P r : ℝ) (hasTax : Bool) (n : ℕ) :
    (payoutLoop P r hasTax n).totalTax =
      ∑ k ∈ Finset.range n, monthTaxAmount P r hasTax (k + 1) := by
  induction n with
  | zero => simp [payoutLoop]
  | succ k ih => simp only [payoutLoop, ih, Finset.sum_range_succ, monthTaxAmount]

theorem payoutLoop_details (P r : ℝ) (hasTax : Bool) (n : ℕ) :
    (payoutLoop P r hasTax n).details =
      (List.range n).map (fun i => detailAt P r hasTax (i + 1)) := by
  induction n with
  | zero => simp [payoutLoop]
  | succ k ih =>
    have hnet := payoutLoop_totalNetProfit P r hasTax k
    simp only [payoutLoop, ih, List.range_succ, List.map_append, List.map_cons,
      List.map_nil, hnet]
    congr 1
    simp only [detailAt, monthTaxAmount, monthNetProfit, netProfitSum,
      Finset.sum_range_succ]

theorem payoutLoop_evolution (P r : ℝ) (hasTax : Bool) (n : ℕ) :
    (payoutLoop P r hasTax n).evolution =
      (List.range (n + 1)).map (fun m => ⟨m, P + netProfitSum P r hasTax m⟩) := by
  induction n with
  | zero =>
    rw [List.range_succ]
    simp [payoutLoop, netProfitSum]
  | succ k ih =>
    have hnet := payoutLoop_totalNetProfit P r hasTax k
    simp only [payoutLoop, ih, hnet]
    rw [List.range_succ (n := k + 1), List.map_append]
    congr 1
    simp only [List.map_cons, List.map_nil, netProfitSum, Finset.sum_range_succ,
      monthNetProfit]

theorem getTaxRate_nonneg (d : ℕ) : 0 ≤ getTaxRate d := by
  unfold getTaxRate; split_ifs <;> norm_num

theorem getTaxRate_le_one (d : ℕ) : getTaxRate d ≤ 1 := by
  unfold getTaxRate; split_ifs <;> norm_num

theorem getTaxRate_antitone {d e : ℕ} (h : d ≤ e) : getTaxRate e ≤ getTaxRate d := by
  unfold getTaxRate; split_ifs <;> first | (exfalso; omega) | norm_num

theorem monthTaxRate_nonneg (hasTax : Bool) (d : ℕ) : 0 ≤ monthTaxRate hasTax d := by
  unfold monthTaxRate; split_ifs
  · exact getTaxRate_nonneg d
  · norm_num

theorem monthTaxRate_le_one (hasTax : Bool) (d : ℕ) : monthTaxRate hasTax d ≤ 1 := by
  unfold monthTaxRate; split_ifs
  · exact getTaxRate_le_one d
  · norm_num

/-- C4: the tax bracket resolver is a pure total function of elapsed days
returning 22.5% for days ≤ 180, 20.0% for 180 < days ≤ 360, 17.5% for
360 < days ≤ 720, and 15.0% otherwise; in particular rate(180) = 22.5%,
rate(181) = 20.0%, rate(360) = 20.0%, rate(361) = 17.5%, rate(720) = 17.5%,
rate(721) = 15.0%. -/
theorem taxBracketResolver_contract (d : ℕ) :
    (d ≤ 180 → getTaxRate d = 0.225) ∧
    (180 < d → d ≤ 360 → getTaxRate d = 0.20) ∧
    (360 < d → d ≤ 720 → getTaxRate d = 0.175) ∧
    (720 < d → getTaxRate d = 0.15) ∧
    getTaxRate 180 = 0.225 ∧ getTaxRate 181 = 0.20 ∧
    getTaxRate 360 = 0.20 ∧ getTaxRate 361 = 0.175 ∧
    getTaxRate 720 = 0.175 ∧ getTaxRate 721 = 0.15 := by
  refine ⟨?_, ?_, ?_, ?_, ?_, ?_, ?_, ?_, ?_, ?_⟩ <;>
    first
      | (intro h₁ h₂; unfold getTaxRate; split_ifs <;> first | rfl | omega)
      | (intro h₁; unfold getTaxRate; split_ifs <;> first | rfl | omega)
      | norm_num [getTaxRate]

theorem taxBracketResolver_contract_witness : getTaxRate 100 = 0.225 :=
  (taxBracketResolver_contract 100).1 (by norm_num)

theorem monthNetProfit_eq (P r : ℝ) (hasTax : Bool) (m : ℕ) :
    monthNetProfit P r hasTax m =
      P * r - (if hasTax = true then P * r * getTaxRate (m * 30) else 0) := by
  cases hasTax <;> simp [monthNetProfit, monthTaxRate]

theorem netProfitSum_eq (P r : ℝ) (hasTax : Bool) (N : ℕ) :
    netProfitSum P r hasTax N =
      ∑ k ∈ Finset.range N,
        (P * r - (if hasTax = true then P * r * getTaxRate ((k + 1) * 30) else 0)) :=
  Finset.sum_congr rfl (fun k _ => monthNetProfit_eq P r hasTax (k + 1))

theorem detailAt_eq (P r : ℝ) (hasTax : Bool) (m : ℕ) :
    detailAt P r hasTax m =
      { month := m, principal := P, grossProfit := P * r,
        taxRate := monthTaxRate hasTax (m * 30) * 100,
        taxAmount := if hasTax = true then P * r * getTaxRate (m * 30) else 0,
        netProfit := P * r - (if hasTax = true then P * r * getTaxRate (m * 30) else 0),
        accumulated :=
          ∑ k ∈ Finset.range m,
            (P * r - (if hasTax = true then P * r * getTaxRate ((k + 1) * 30) else 0)) } := by
  rw [detailAt, netProfitSum_eq]
  cases hasTax <;> simp [monthTaxAmount, monthNetProfit, monthTaxRate]

theorem payout_details_getElem (P r : ℝ) (hasTax : Bool) (N i : ℕ) (h : i < N) :
    (calculateWithMonthlyPayout P r hasTax N).details[i]? =
      some (detailAt P r hasTax (i + 1)) := by
  show (payoutLoop P r hasTax N).details[i]? = _
  rw [payoutLoop_details, List.getElem?_map, List.getElem?_range h, Option.map_some']

/-- C2: in distributed mode, for every month m in 1..N the monthly detail has
gross profit = principal × monthlyRate (constant), tax = gross profit ×
rate(m × 30 days) from the tax bracket resolver (0 if tax-exempt), net profit
= gross − tax; the final gross total is principal plus the sum of monthly
gross profits, the final net total is principal plus the sum of monthly net
profits, and the accumulated field of the month-N detail equals
netTotal − principal. -/
theorem distributedStrategy_details_and_totals (P r : ℝ) (hasTax : Bool) (N : ℕ) :
    (∀ m, 1 ≤ m → m ≤ N →
      (calculateWithMonthlyPayout P r hasTax N).details[m - 1]? =
        some { month := m, principal := P, grossProfit := P * r,
               taxRate := monthTaxRate hasTax (m * 30) * 100,
               taxAmount := if hasTax = true then P * r * getTaxRate (m * 30) else 0,
               netProfit :=
                 P * r - (if hasTax = true then P * r * getTaxRate (m * 30) else 0),
               accumulated :=
                 ∑ k ∈ Finset.range m,
                   (P * r -
                     (if hasTax = true then P * r * getTaxRate ((k + 1) * 30) else 0)) }) ∧
    (calculateWithMonthlyPayout P r hasTax N).grossTotal =
      P + ∑ _k ∈ Finset.range N, P * r ∧
    (calculateWithMonthlyPayout P r hasTax N).netTotal =
      P + ∑ k ∈ Finset.range N,
        (P * r - (if hasTax = true then P * r * getTaxRate ((k + 1) * 30) else 0)) ∧
    (1 ≤ N →
      ∃ d, (calculateWithMonthlyPayout P r hasTax N).details[N - 1]? = some d ∧
        d.accumulated = (calculateWithMonthlyPayout P r hasTax N).netTotal - P) := by
  have hnet : (calculateWithMonthlyPayout P r hasTax N).netTotal =
      P + netProfitSum P r hasTax N := by
    show P + (payoutLoop P r hasTax N).totalNetProfit = _
    rw [payoutLoop_totalNetProfit]
  refine ⟨?_, ?_, ?_, ?_⟩
  · intro m h1 h2
    have h : m - 1 < N := by omega
    rw [payout_details_getElem P r hasTax N (m - 1) h]
    have hm : m - 1 + 1 = m := by omega
    rw [hm, detailAt_eq]
  · show P + (payoutLoop P r hasTax N).totalGrossProfit = _
    rw [payoutLoop_totalGrossProfit]
  · rw [hnet, netProfitSum_eq]
  · intro hN
    refine ⟨detailAt P r hasTax N, ?_, ?_⟩
    · have h : N - 1 < N := by omega
      rw [payout_details_getElem P r hasTax N (N - 1) h]
      have hm : N - 1 + 1 = N := by omega
      rw [hm]
    · rw [hnet]
      show netProfitSum P r hasTax N = P + netProfitSum P r hasTax N - P
      ring

theorem distributedStrategy_details_and_totals_witness :
    (calculateWithMonthlyPayout 100 (1 / 100) true 2).details[0]? =
      some { month := 1, principal := 100, grossProfit := 1, taxRate := 22.5,
             taxAmount := 0.225, netProfit := 0.775, accumulated := 0.775 } := by
  have h := (distributedStrategy_details_and_totals 100 (1 / 100) true 2).1 1
    (by norm_num) (by norm_num)
  rw [h]
  norm_num [getTaxRate, monthTaxRate, Finset.sum_range_succ]

/-- C8: percentOfBenchmark returns annualGross / benchmarkAnnual × 100 for
every nonzero benchmark rate and returns exactly 0 when the benchmark annual
rate is 0.  (The embedding consists of total functions throughout: every
computation, including over degenerate inputs, yields a value and never an
error.) -/
theorem percentOfBenchmark_guard (cdiAnnual annualRateGross : ℝ) :
    (cdiAnnual = 0 → calculatePercentOfCDI cdiAnnual annualRateGross = 0) ∧
    (cdiAnnual ≠ 0 →
      calculatePercentOfCDI cdiAnnual annualRateGross =
        annualRateGross / cdiAnnual * 100) := by
  constructor <;> intro h <;> simp [calculatePercentOfCDI, h]

theorem percentOfBenchmark_guard_witness :
    calculatePercentOfCDI 0 5 = 0 ∧ calculatePercentOfCDI 10 5 = 50 := by
  constructor
  · exact (percentOfBenchmark_guard 0 5).1 rfl
  · rw [(percentOfBenchmark_guard 10 5).2 (by norm_num)]
    norm_num

theorem fundEntry_type (p : SimulationParams) :
    (fundEntry p).type = InvestmentType.fund := by
  unfold fundEntry; split <;> rfl

theorem fundEntry_isUserFund (p : SimulationParams) :
    (fundEntry p).isUserFund = true := by
  unfold fundEntry; split <;> rfl

theorem cdbEntry_type (p : SimulationParams) :
    (cdbEntry p).type = InvestmentType.cdb := by
  unfold cdbEntry; split <;> rfl

theorem cdbEntry_isUserFund (p : SimulationParams) :
    (cdbEntry p).isUserFund = false := by
  unfold cdbEntry; split <;> rfl

theorem lciEntry_type (p : SimulationParams) :
    (lciEntry p).type = InvestmentType.lci := by
  unfold lciEntry; split <;> rfl

theorem lciEntry_isUserFund (p : SimulationParams) :
    (lciEntry p).isUserFund = false := by
  unfold lciEntry; split <;> rfl

theorem preEntry_type (p : SimulationParams) :
    (preEntry p).type = InvestmentType.cdb := by
  unfold preEntry; split <;> rfl

theorem preEntry_isUserFund (p : SimulationParams) :
    (preEntry p).isUserFund = false := by
  unfold preEntry; split <;> rfl

theorem ipcaEntry_type (p : SimulationParams) :
    (ipcaEntry p).type = InvestmentType.cdb := by
  unfold ipcaEntry; split <;> rfl

theorem ipcaEntry_isUserFund (p : SimulationParams) :
    (ipcaEntry p).isUserFund = false := by
  unfold ipcaEntry; split <;> rfl

theorem compEntry_type (p : SimulationParams) :
    (compEntry p).type = InvestmentType.comparison := by
  unfold compEntry; split <;> rfl

theorem compEntry_isUserFund (p : SimulationParams) :
    (compEntry p).isUserFund = false := by
  unfold compEntry; split <;> rfl

theorem poupEntry_type (p : SimulationParams) :
    (poupEntry p).type = InvestmentType.poupanca := by
  unfold poupEntry; split <;> rfl

theorem poupEntry_isUserFund (p : SimulationParams) :
    (poupEntry p).isUserFund = false := by
  unfold poupEntry; split <;> rfl

/-- The default parameter set of the application form, with the accrual-mode
switch set to compound reinvestment (the scenario of §8 of the spec). -/
noncomputable def scenarioParams : SimulationParams :=
  { principal := 100000
    months := 24
    cdiAnnual := 14.90
    ipcaAnnual := 5.17
    fundRateMonthly := 1.5
    cdbPercentOfCDI := 105
    lciPercentOfCDI := 90
    preFixedAnnual := 12.5
    ipcaPlusAnnual := 6.0
    comparisonFund12MonthReturn := 15.0
    globalPayoutMonthly := false }

/-- C3 (amended): in compound mode every taxed instrument has gross total
`principal * (1 + monthlyRate) ^ N` and tax levied exactly once on
(gross − principal) at the bracket rate for the full period (N × 30 days).
For principal 100000, N = 24 and monthly rate 1.5% this yields a gross total
≈ 142950.28, a tax ≈ 7516.30 at the 17.5% bracket, and a net total
≈ 135433.98 (not the 143182.18 / 7556.88 / 135625.30 stated in the spec). -/
theorem fundEntry_compound_fields (p : SimulationParams)
    (h : p.globalPayoutMonthly = false) :
    (fundEntry p).grossTotal =
        p.principal * (1 + p.fundRateMonthly / 100) ^ p.months ∧
      (fundEntry p).taxAmount =
        (p.principal * (1 + p.fundRateMonthly / 100) ^ p.months - p.principal) *
          getTaxRate (p.months * 30) ∧
      (fundEntry p).netTotal =
        (fundEntry p).grossTotal -
          ((fundEntry p).grossTotal - p.principal) * getTaxRate (p.months * 30) ∧
      (fundEntry p).taxRate = getTaxRate (p.months * 30) * 100 := by
  simp only [fundEntry, h, Bool.false_eq_true, if_false]
  refine ⟨?_, ?_, ?_, ?_⟩ <;> trivial

theorem compoundStrategy_maturity_taxation :
    (∀ p : SimulationParams, p.globalPayoutMonthly = false →
      ((fundEntry p).grossTotal =
          p.principal * (1 + p.fundRateMonthly / 100) ^ p.months ∧
        (fundEntry p).netTotal =
          (fundEntry p).grossTotal -
            ((fundEntry p).grossTotal - p.principal) * getTaxRate (p.months * 30)) ∧
      ((cdbEntry p).grossTotal =
          p.principal *
            (1 + annualToMonthlyCompound p.cdiAnnual * (p.cdbPercentOfCDI / 100)) ^
              p.months ∧
        (cdbEntry p).netTotal =
          (cdbEntry p).grossTotal -
            ((cdbEntry p).grossTotal - p.principal) * getTaxRate (p.months * 30)) ∧
      ((preEntry p).grossTotal =
          p.principal * (1 + annualToMonthlyCompound p.preFixedAnnual) ^ p.months ∧
        (preEntry p).netTotal =
          (preEntry p).grossTotal -
            ((preEntry p).grossTotal - p.principal) * getTaxRate (p.months * 30)) ∧
      ((ipcaEntry p).grossTotal =
          p.principal *
            (1 + (annualToMonthlyCompound p.ipcaAnnual + p.ipcaPlusAnnual / 100 / 12)) ^
              p.months ∧
        (ipcaEntry p).netTotal =
          (ipcaEntry p).grossTotal -
            ((ipcaEntry p).grossTotal - p.principal) * getTaxRate (p.months * 30)) ∧
      ((compEntry p).grossTotal =
          p.principal *
            (1 + ((1 + p.comparisonFund12MonthReturn / 100) ^ ((1 : ℝ) / 12) - 1)) ^
              p.months ∧
        (compEntry p).netTotal =
          (compEntry p).grossTotal -
            ((compEntry p).grossTotal - p.principal) * getTaxRate (p.months * 30))) ∧
    (|(fundEntry scenarioParams).grossTotal - 142950.28| < 0.005 ∧
      |(fundEntry scenarioParams).taxAmount - 7516.30| < 0.005 ∧
      |(fundEntry scenarioParams).netTotal - 135433.98| < 0.005 ∧
      (fundEntry scenarioParams).taxRate = 17.5) := by
  have hfund := fundEntry_compound_fields
  constructor
  · intro p h
    refine ⟨⟨(hfund p h).1, (hfund p h).2.2.1⟩, ?_, ?_, ?_, ?_⟩
    · simp only [cdbEntry, h, Bool.false_eq_true, if_false]
      refine ⟨?_, ?_⟩ <;> trivial
    · simp only [preEntry, h, Bool.false_eq_true, if_false]
      refine ⟨?_, ?_⟩ <;> trivial
    · simp only [ipcaEntry, h, Bool.false_eq_true, if_false]
      refine ⟨?_, ?_⟩ <;> trivial
    · simp only [compEntry, h, Bool.false_eq_true, if_false]
      refine ⟨?_, ?_⟩ <;> trivial
  · obtain ⟨hg, ht, hn, hr⟩ := hfund scenarioParams rfl
    have h720 : getTaxRate (scenarioParams.months * 30) = 0.175 := by
      norm_num [scenarioParams, getTaxRate]
    rw [h720] at ht hn hr
    have hgv : (fundEntry scenarioParams).grossTotal =
        100000 * (1 + 1.5 / 100) ^ (24 : ℕ) := hg
    refine ⟨?_, ?_, ?_, ?_⟩
    · rw [hgv, abs_lt]
      norm_num
    · rw [ht, abs_lt]
      norm_num [scenarioParams]
    · rw [hn, hgv, abs_lt]
      norm_num [scenarioParams]
    · rw [hr]
      norm_num

theorem compoundStrategy_maturity_taxation_witness :
    (fundEntry scenarioParams).grossTotal = 100000 * (1 + 1.5 / 100) ^ (24 : ℕ) :=
  ((compoundStrategy_maturity_taxation.1 scenarioParams rfl).1).1

/-- C3 counterexample: the concrete figures stated in the spec for the
compound scenario (gross ≈ 143182.18, tax ≈ 7556.88, net ≈ 135625.30) are
wrong — the code's values differ from them by more than 200, 40 and 190
currency units respectively. -/
theorem compoundScenario_spec_values_refuted :
    200 < |(fundEntry scenarioParams).grossTotal - 143182.18| ∧
    40 < |(fundEntry scenarioParams).taxAmount - 7556.88| ∧
    190 < |(fundEntry scenarioParams).netTotal - 135625.30| := by
  obtain ⟨hg, ht, hn, -⟩ := fundEntry_compound_fields scenarioParams rfl
  have h720 : getTaxRate (scenarioParams.months * 30) = 0.175 := by
    norm_num [scenarioParams, getTaxRate]
  rw [h720] at ht hn
  have hgv : (fundEntry scenarioParams).grossTotal =
      100000 * (1 + 1.5 / 100) ^ (24 : ℕ) := hg
  refine ⟨?_, ?_, ?_⟩
  · rw [hgv, abs_sub_comm, abs_of_pos (by norm_num)]
    norm_num
  · rw [ht, abs_sub_comm]
    rw [abs_of_pos (by norm_num [scenarioParams])]
    norm_num [scenarioParams]
  · rw [hn, hgv, abs_sub_comm]
    rw [abs_of_pos (by norm_num [scenarioParams])]
    norm_num [scenarioParams]

theorem lciEntry_grossUp_percent (p : SimulationParams) :
    (lciEntry p).grossUp =
        calculateGrossUp (getTaxRate (p.months * 30)) p.lciPercentOfCDI ∧
      (lciEntry p).monthlyReturnPercentOfCDI = p.lciPercentOfCDI := by
  unfold lciEntry; split <;> exact ⟨rfl, rfl⟩

theorem poupEntry_grossUp_percent (p : SimulationParams) :
    (poupEntry p).grossUp =
        calculateGrossUp (getTaxRate (p.months * 30))
          (calculatePercentOfCDI p.cdiAnnual (monthlyToAnnualCompound (0.005 + 0.0017))) ∧
      (poupEntry p).monthlyReturnPercentOfCDI =
        calculatePercentOfCDI p.cdiAnnual (monthlyToAnnualCompound (0.005 + 0.0017)) := by
  unfold poupEntry; split <;> exact ⟨rfl, rfl⟩

theorem lciEntry_mem_buildResults (p : SimulationParams) :
    lciEntry p ∈ buildResults p := by
  simp [buildResults]

/-- The gross-up scenario of §8 of the spec: a holding period of 25 months
(so the whole-period withholding rate is the 15% bracket) and a tax-exempt
bond contracted at 90% of the benchmark. -/
noncomputable def grossUpScenarioParams : SimulationParams :=
  { scenarioParams with months := 25, lciPercentOfCDI := 90 }

/-- C7: the gross-up reported for a tax-exempt instrument equals its
percent-of-benchmark figure divided by (1 − r), where r is the withholding
rate for the full holding period (the bracket rate at days = months × 30);
with a contracted 90% of benchmark and a 15% period tax rate the gross-up is
90 / 0.85 ≈ 105.88. -/
theorem grossUp_taxExempt_reporting :
    (∀ p : SimulationParams, ∀ r ∈ buildResults p,
      (r.type = InvestmentType.lci ∨ r.type = InvestmentType.poupanca) →
        r.grossUp = r.monthlyReturnPercentOfCDI / (1 - getTaxRate (p.months * 30))) ∧
    getTaxRate (grossUpScenarioParams.months * 30) = 0.15 ∧
    |(lciEntry grossUpScenarioParams).grossUp - 105.88| < 1 / 100 := by
  have h15 : getTaxRate (grossUpScenarioParams.months * 30) = 0.15 := by
    norm_num [grossUpScenarioParams, scenarioParams, getTaxRate]
  refine ⟨?_, h15, ?_⟩
  · intro p r hr htype
    by_cases hc : 0 < p.comparisonFund12MonthReturn <;>
      simp only [buildResults, hc, if_true, if_false, List.mem_append, List.mem_cons,
        List.mem_singleton, List.not_mem_nil, or_false] at hr
    · rcases hr with ((rfl | rfl | rfl | rfl | rfl) | rfl) | rfl
      · rw [fundEntry_type] at htype
        rcases htype with h | h <;> simp at h
      · rw [cdbEntry_type] at htype
        rcases htype with h | h <;> simp at h
      · rw [(lciEntry_grossUp_percent p).1, (lciEntry_grossUp_percent p).2,
          calculateGrossUp]
      · rw [preEntry_type] at htype
        rcases htype with h | h <;> simp at h
      · rw [ipcaEntry_type] at htype
        rcases htype with h | h <;> simp at h
      · rw [compEntry_type] at htype
        rcases htype with h | h <;> simp at h
      · rw [(poupEntry_grossUp_percent p).1, (poupEntry_grossUp_percent p).2,
          calculateGrossUp]
    · rcases hr with (rfl | rfl | rfl | rfl | rfl) | rfl
      · rw [fundEntry_type] at htype
        rcases htype with h | h <;> simp at h
      · rw [cdbEntry_type] at htype
        rcases htype with h | h <;> simp at h
      · rw [(lciEntry_grossUp_percent p).1, (lciEntry_grossUp_percent p).2,
          calculateGrossUp]
      · rw [preEntry_type] at htype
        rcases htype with h | h <;> simp at h
      · rw [ipcaEntry_type] at htype
        rcases htype with h | h <;> simp at h
      · rw [(poupEntry_grossUp_percent p).1, (poupEntry_grossUp_percent p).2,
          calculateGrossUp]
  · rw [(lciEntry_grossUp_percent grossUpScenarioParams).1, h15, calculateGrossUp]
    have h90 : grossUpScenarioParams.lciPercentOfCDI = 90 := rfl
    rw [h90, abs_lt]
    norm_num

theorem grossUp_taxExempt_reporting_witness :
    (lciEntry grossUpScenarioParams).grossUp =
      (lciEntry grossUpScenarioParams).monthlyReturnPercentOfCDI /
        (1 - getTaxRate (grossUpScenarioParams.months * 30)) :=
  grossUp_taxExempt_reporting.1 grossUpScenarioParams (lciEntry grossUpScenarioParams)
    (lciEntry_mem_buildResults grossUpScenarioParams)
    (Or.inl (lciEntry_type grossUpScenarioParams))

/-- C1 (amended): only the user fund's net annual rate follows the global
accrual mode (simple annualization of the back-solved net monthly rate in
distributed mode, compound annualization in compound mode).  The CDB,
fixed-rate, inflation-linked and peer-fund entries back-solve their net
monthly rate the same way but always annualize it with the compound
convention, regardless of the mode; the tax-exempt entries (LCI and savings)
do not back-solve at all — they report their gross monthly and gross annual
rates as the net ones. -/
theorem annualization_conventions (p : SimulationParams) :
    ((p.globalPayoutMonthly = true →
        (fundEntry p).monthlyRateNet =
          netMonthlyRateOf (fundEntry p).netTotal p.principal p.months * 100 ∧
        (fundEntry p).annualRateNet =
          monthlyToAnnualSimple
            (netMonthlyRateOf (fundEntry p).netTotal p.principal p.months)) ∧
      (p.globalPayoutMonthly = false →
        (fundEntry p).monthlyRateNet =
          netMonthlyRateOf (fundEntry p).netTotal p.principal p.months * 100 ∧
        (fundEntry p).annualRateNet =
          monthlyToAnnualCompound
            (netMonthlyRateOf (fundEntry p).netTotal p.principal p.months))) ∧
    ((cdbEntry p).monthlyRateNet =
        netMonthlyRateOf (cdbEntry p).netTotal p.principal p.months * 100 ∧
      (cdbEntry p).annualRateNet =
        monthlyToAnnualCompound
          (netMonthlyRateOf (cdbEntry p).netTotal p.principal p.months)) ∧
    ((preEntry p).monthlyRateNet =
        netMonthlyRateOf (preEntry p).netTotal p.principal p.months * 100 ∧
      (preEntry p).annualRateNet =
        monthlyToAnnualCompound
          (netMonthlyRateOf (preEntry p).netTotal p.principal p.months)) ∧
    ((ipcaEntry p).monthlyRateNet =
        netMonthlyRateOf (ipcaEntry p).netTotal p.principal p.months * 100 ∧
      (ipcaEntry p).annualRateNet =
        monthlyToAnnualCompound
          (netMonthlyRateOf (ipcaEntry p).netTotal p.principal p.months)) ∧
    ((compEntry p).monthlyRateNet =
        netMonthlyRateOf (compEntry p).netTotal p.principal p.months * 100 ∧
      (compEntry p).annualRateNet =
        monthlyToAnnualCompound
          (netMonthlyRateOf (compEntry p).netTotal p.principal p.months)) ∧
    ((lciEntry p).monthlyRateNet = (lciEntry p).monthlyRateGross ∧
      (lciEntry p).annualRateNet = (lciEntry p).annualRateGross) ∧
    ((poupEntry p).monthlyRateNet = (poupEntry p).monthlyRateGross ∧
      (poupEntry p).annualRateNet = (poupEntry p).annualRateGross) := by
  refine ⟨⟨?_, ?_⟩, ?_, ?_, ?_, ?_, ?_, ?_⟩
  · intro h
    simp only [fundEntry, h, if_true]
    refine ⟨?_, ?_⟩ <;> trivial
  · intro h
    simp only [fundEntry, h, Bool.false_eq_true, if_false]
    refine ⟨?_, ?_⟩ <;> trivial
  · by_cases h : p.globalPayoutMonthly <;>
      simp only [cdbEntry, h, Bool.false_eq_true, if_true, if_false] <;>
      refine ⟨?_, ?_⟩ <;> trivial
  · by_cases h : p.globalPayoutMonthly <;>
      simp only [preEntry, h, Bool.false_eq_true, if_true, if_false] <;>
      refine ⟨?_, ?_⟩ <;> trivial
  · by_cases h : p.globalPayoutMonthly <;>
      simp only [ipcaEntry, h, Bool.false_eq_true, if_true, if_false] <;>
      refine ⟨?_, ?_⟩ <;> trivial
  · by_cases h : p.globalPayoutMonthly <;>
      simp only [compEntry, h, Bool.false_eq_true, if_true, if_false] <;>
      refine ⟨?_, ?_⟩ <;> trivial
  · by_cases h : p.globalPayoutMonthly <;>
      simp only [lciEntry, h, Bool.false_eq_true, if_true, if_false] <;>
      refine ⟨?_, ?_⟩ <;> trivial
  · by_cases h : p.globalPayoutMonthly <;>
      simp only [poupEntry, h, Bool.false_eq_true, if_true, if_false] <;>
      refine ⟨?_, ?_⟩ <;> trivial

/-- Parameters exhibiting the mode/convention mismatch: distributed mode,
one month, a benchmark annual rate of 409500% (so that the derived benchmark
monthly rate is exactly 4096^(1/12) − 1 = 1) and a CDB contracted at 100% of
the benchmark. -/
noncomputable def modeMixParams : SimulationParams :=
  { principal := 100
    months := 1
    cdiAnnual := 409500
    ipcaAnnual := 0
    fundRateMonthly := 0
    cdbPercentOfCDI := 100
    lciPercentOfCDI := 0
    preFixedAnnual := 0
    ipcaPlusAnnual := 0
    comparisonFund12MonthReturn := 0
    globalPayoutMonthly := true }

theorem annualToMonthlyCompound_409500 : annualToMonthlyCompound (409500 : ℝ) = 1 := by
  unfold annualToMonthlyCompound
  have h1 : (1 + (409500 : ℝ) / 100) = 4096 := by norm_num
  have h2 : (4096 : ℝ) = (2 : ℝ) ^ (12 : ℕ) := by norm_num
  rw [h1, h2, ← Real.rpow_natCast 2 12,
    ← Real.rpow_mul (by norm_num : (0 : ℝ) ≤ 2)]
  norm_num

theorem cdbEntry_modeMix_netTotal : (cdbEntry modeMixParams).netTotal = 177.5 := by
  have hrate : annualToMonthlyCompound modeMixParams.cdiAnnual *
      (modeMixParams.cdbPercentOfCDI / 100) = 1 := by
    have hc : modeMixParams.cdiAnnual = (409500 : ℝ) := rfl
    have hp : modeMixParams.cdbPercentOfCDI = (100 : ℝ) := rfl
    rw [hc, hp, annualToMonthlyCompound_409500]
    norm_num
  have hmode : modeMixParams.globalPayoutMonthly = true := rfl
  simp only [cdbEntry, hmode, if_true]
  rw [hrate]
  show (calculateWithMonthlyPayout modeMixParams.principal 1 true
    modeMixParams.months).netTotal = 177.5
  have hP : modeMixParams.principal = (100 : ℝ) := rfl
  have hm : modeMixParams.months = 1 := rfl
  rw [hP, hm]
  show (100 : ℝ) + (payoutLoop 100 1 true 1).totalNetProfit = 177.5
  rw [payoutLoop_totalNetProfit]
  norm_num [netProfitSum, monthNetProfit, monthTaxRate, getTaxRate,
    Finset.sum_range_succ]

/-- C1 counterexample: in distributed mode the CDB entry's reported net
annual rate is NOT the simple annualization of its back-solved net monthly
rate (the code always annualizes the CDB with the compound convention, so the
global mode does not determine the convention for every instrument). -/
theorem annualizationConvention_mode_refuted :
    modeMixParams.globalPayoutMonthly = true ∧
    (cdbEntry modeMixParams).annualRateNet ≠
      monthlyToAnnualSimple
        (netMonthlyRateOf (cdbEntry modeMixParams).netTotal modeMixParams.principal
          modeMixParams.months) := by
  refine ⟨rfl, ?_⟩
  have hannual : (cdbEntry modeMixParams).annualRateNet =
      monthlyToAnnualCompound
        (netMonthlyRateOf (cdbEntry modeMixParams).netTotal modeMixParams.principal
          modeMixParams.months) := by
    have hmode : modeMixParams.globalPayoutMonthly = true := rfl
    simp only [cdbEntry, hmode, if_true]
  rw [hannual, cdbEntry_modeMix_netTotal]
  have hP : modeMixParams.principal = (100 : ℝ) := rfl
  have hm : modeMixParams.months = 1 := rfl
  rw [hP, hm]
  have hback : netMonthlyRateOf (177.5 : ℝ) 100 1 = 0.775 := by
    unfold netMonthlyRateOf
    norm_num [Real.rpow_one]
  rw [hback]
  unfold monthlyToAnnualCompound monthlyToAnnualSimple
  norm_num

theorem annualization_conventions_witness :
    (fundEntry modeMixParams).annualRateNet =
      monthlyToAnnualSimple
        (netMonthlyRateOf (fundEntry modeMixParams).netTotal modeMixParams.principal
          modeMixParams.months) :=
  ((annualization_conventions modeMixParams).1.1 rfl).2

theorem insertDesc_length (x : SimulationResult) (l : List SimulationResult) :
    (insertDesc x l).length = l.length + 1 := by
  induction l with
  | nil => rfl
  | cons h t ih =>
    rw [insertDesc]
    split
    · simp [ih]
    · simp

theorem mem_insertDesc {y x : SimulationResult} {l : List SimulationResult} :
    y ∈ insertDesc x l ↔ y = x ∨ y ∈ l := by
  induction l with
  | nil => simp [insertDesc]
  | cons h t ih =>
    rw [insertDesc]
    split
    · simp only [List.mem_cons, ih]
      tauto
    · simp only [List.mem_cons]

theorem insertDesc_pairwise (x : SimulationResult) {l : List SimulationResult}
    (h : l.Pairwise (fun a b => b.netTotal ≤ a.netTotal)) :
    (insertDesc x l).Pairwise (fun a b => b.netTotal ≤ a.netTotal) := by
  induction l with
  | nil => simp [insertDesc]
  | cons hd t ih =>
    rw [List.pairwise_cons] at h
    rw [insertDesc]
    split
    · rename_i hle
      rw [List.pairwise_cons]
      refine ⟨?_, ih h.2⟩
      intro y hy
      rcases mem_insertDesc.1 hy with rfl | hyt
      · exact hle
      · exact h.1 y hyt
    · rename_i hgt
      push_neg at hgt
      rw [List.pairwise_cons]
      refine ⟨?_, List.pairwise_cons.2 h⟩
      intro y hy
      rcases List.mem_cons.1 hy with rfl | hyt
      · exact le_of_lt hgt
      · exact le_trans (h.1 y hyt) (le_of_lt hgt)

theorem sortByNetTotalDesc_foldl_length (l acc : List SimulationResult) :
    (l.foldl (fun acc x => insertDesc x acc) acc).length = acc.length + l.length := by
  induction l generalizing acc with
  | nil => simp
  | cons h t ih =>
    rw [List.foldl_cons, ih, insertDesc_length, List.length_cons]
    omega

theorem sortByNetTotalDesc_length (l : List SimulationResult) :
    (sortByNetTotalDesc l).length = l.length := by
  rw [sortByNetTotalDesc, sortByNetTotalDesc_foldl_length]
  simp

theorem mem_sortByNetTotalDesc_foldl {y : SimulationResult}
    (l acc : List SimulationResult) :
    y ∈ l.foldl (fun acc x => insertDesc x acc) acc ↔ y ∈ acc ∨ y ∈ l := by
  induction l generalizing acc with
  | nil => simp
  | cons h t ih =>
    rw [List.foldl_cons, ih]
    rw [mem_insertDesc]
    simp only [List.mem_cons]
    tauto

theorem mem_sortByNetTotalDesc {y : SimulationResult} {l : List SimulationResult} :
    y ∈ sortByNetTotalDesc l ↔ y ∈ l := by
  rw [sortByNetTotalDesc, mem_sortByNetTotalDesc_foldl]
  simp

theorem sortByNetTotalDesc_pairwise (l : List SimulationResult) :
    (sortByNetTotalDesc l).Pairwise (fun a b => b.netTotal ≤ a.netTotal) := by
  rw [sortByNetTotalDesc]
  have haux : ∀ (t acc : List SimulationResult),
      acc.Pairwise (fun a b => b.netTotal ≤ a.netTotal) →
      (t.foldl (fun acc x => insertDesc x acc) acc).Pairwise
        (fun a b => b.netTotal ≤ a.netTotal) := by
    intro t
    induction t with
    | nil => intro acc h; simpa using h
    | cons hd tl ih =>
      intro acc h
      rw [List.foldl_cons]
      exact ih _ (insertDesc_pairwise hd h)
  exact haux l [] (by simp)

theorem buildResults_filter_user (p : SimulationParams) :
    (buildResults p).filter (fun r => r.isUserFund) = [fundEntry p] := by
  by_cases hc : 0 < p.comparisonFund12MonthReturn <;>
    simp [buildResults, hc, List.filter_cons, List.filter_append,
      fundEntry_isUserFund, cdbEntry_isUserFund, lciEntry_isUserFund,
      preEntry_isUserFund, ipcaEntry_isUserFund, compEntry_isUserFund,
      poupEntry_isUserFund]

theorem buildResults_filter_others (p : SimulationParams) :
    (buildResults p).filter (fun r => !r.isUserFund) =
      [cdbEntry p, lciEntry p, preEntry p, ipcaEntry p] ++
        (if 0 < p.comparisonFund12MonthReturn then [compEntry p] else []) ++
        [poupEntry p] := by
  by_cases hc : 0 < p.comparisonFund12MonthReturn <;>
    simp [buildResults, hc, List.filter_cons, List.filter_append,
      fundEntry_isUserFund, cdbEntry_isUserFund, lciEntry_isUserFund,
      preEntry_isUserFund, ipcaEntry_isUserFund, compEntry_isUserFund,
      poupEntry_isUserFund]

theorem calculateSimulations_eq (p : SimulationParams) :
    calculateSimulations p =
      fundEntry p ::
        sortByNetTotalDesc
          ([cdbEntry p, lciEntry p, preEntry p, ipcaEntry p] ++
            (if 0 < p.comparisonFund12MonthReturn then [compEntry p] else []) ++
            [poupEntry p]) := by
  show (buildResults p).filter (fun r => r.isUserFund) ++
      sortByNetTotalDesc ((buildResults p).filter (fun r => !r.isUserFund)) = _
  rw [buildResults_filter_user, buildResults_filter_others]
  rfl

theorem calculateSimulations_length (p : SimulationParams) :
    (calculateSimulations p).length =
      if 0 < p.comparisonFund12MonthReturn then 7 else 6 := by
  rw [calculateSimulations_eq, List.length_cons, sortByNetTotalDesc_length]
  by_cases hc : 0 < p.comparisonFund12MonthReturn <;> simp [hc]

/-- C6 (amended): the engine derives one result per instrument variant out of
six unconditional variants, plus an optional seventh (the peer fund) present
exactly when the peer-fund trailing 12-month return is positive; the result
list therefore has 7 entries when that return is strictly positive and 6
entries otherwise. -/
theorem resultList_count (p : SimulationParams) :
    (0 < p.comparisonFund12MonthReturn → (calculateSimulations p).length = 7) ∧
    (¬0 < p.comparisonFund12MonthReturn → (calculateSimulations p).length = 6) := by
  rw [calculateSimulations_length]
  constructor <;> intro h <;> simp [h]

theorem resultList_count_witness : (calculateSimulations scenarioParams).length = 7 :=
  (resultList_count scenarioParams).1 (by norm_num [scenarioParams])

theorem cdbEntry_compound_netTotal (p : SimulationParams)
    (h : p.globalPayoutMonthly = false) :
    (cdbEntry p).netTotal =
      p.principal *
          (1 + annualToMonthlyCompound p.cdiAnnual * (p.cdbPercentOfCDI / 100)) ^
            p.months -
        (p.principal *
            (1 + annualToMonthlyCompound p.cdiAnnual * (p.cdbPercentOfCDI / 100)) ^
              p.months -
          p.principal) * getTaxRate (p.months * 30) := by
  simp only [cdbEntry, h, Bool.false_eq_true, if_false]

theorem lciEntry_compound_netTotal (p : SimulationParams)
    (h : p.globalPayoutMonthly = false) :
    (lciEntry p).netTotal =
      p.principal *
        (1 + annualToMonthlyCompound p.cdiAnnual * (p.lciPercentOfCDI / 100)) ^
          p.months := by
  simp only [lciEntry, h, Bool.false_eq_true, if_false]

theorem preEntry_compound_netTotal (p : SimulationParams)
    (h : p.globalPayoutMonthly = false) :
    (preEntry p).netTotal =
      p.principal * (1 + annualToMonthlyCompound p.preFixedAnnual) ^ p.months -
        (p.principal * (1 + annualToMonthlyCompound p.preFixedAnnual) ^ p.months -
          p.principal) * getTaxRate (p.months * 30) := by
  simp only [preEntry, h, Bool.false_eq_true, if_false]

theorem ipcaEntry_compound_netTotal (p : SimulationParams)
    (h : p.globalPayoutMonthly = false) :
    (ipcaEntry p).netTotal =
      p.principal *
          (1 + (annualToMonthlyCompound p.ipcaAnnual + p.ipcaPlusAnnual / 100 / 12)) ^
            p.months -
        (p.principal *
            (1 + (annualToMonthlyCompound p.ipcaAnnual + p.ipcaPlusAnnual / 100 / 12)) ^
              p.months -
          p.principal) * getTaxRate (p.months * 30) := by
  simp only [ipcaEntry, h, Bool.false_eq_true, if_false]

theorem poupEntry_compound_netTotal (p : SimulationParams)
    (h : p.globalPayoutMonthly = false) :
    (poupEntry p).netTotal =
      p.principal * (1 + (0.005 + 0.0017)) ^ p.months := by
  simp only [poupEntry, h, Bool.false_eq_true, if_false]

theorem annualToMonthlyCompound_zero : annualToMonthlyCompound 0 = 0 := by
  unfold annualToMonthlyCompound
  have h1 : (1 + (0 : ℝ) / 100) = 1 := by norm_num
  rw [h1, Real.one_rpow]
  norm_num

/-- All-zero rates, one month, compound mode: a degenerate but admissible
parameter set on which four instruments tie at a net total equal to the
principal. -/
noncomputable def degenerateParams : SimulationParams :=
  { principal := 100
    months := 1
    cdiAnnual := 0
    ipcaAnnual := 0
    fundRateMonthly := 0
    cdbPercentOfCDI := 0
    lciPercentOfCDI := 0
    preFixedAnnual := 0
    ipcaPlusAnnual := 0
    comparisonFund12MonthReturn := 0
    globalPayoutMonthly := false }

theorem fund_net_degenerate : (fundEntry degenerateParams).netTotal = 100 := by
  obtain ⟨hg, -, hn, -⟩ := fundEntry_compound_fields degenerateParams rfl
  rw [hn, hg]
  norm_num [degenerateParams]

theorem cdb_net_degenerate : (cdbEntry degenerateParams).netTotal = 100 := by
  rw [cdbEntry_compound_netTotal degenerateParams rfl]
  norm_num [degenerateParams]

theorem lci_net_degenerate : (lciEntry degenerateParams).netTotal = 100 := by
  rw [lciEntry_compound_netTotal degenerateParams rfl]
  norm_num [degenerateParams]

theorem pre_net_degenerate : (preEntry degenerateParams).netTotal = 100 := by
  rw [preEntry_compound_netTotal degenerateParams rfl]
  norm_num [degenerateParams, annualToMonthlyCompound_zero]

theorem ipca_net_degenerate : (ipcaEntry degenerateParams).netTotal = 100 := by
  rw [ipcaEntry_compound_netTotal degenerateParams rfl]
  norm_num [degenerateParams, annualToMonthlyCompound_zero]

theorem poup_net_degenerate : (poupEntry degenerateParams).netTotal = 100.67 := by
  rw [poupEntry_compound_netTotal degenerateParams rfl]
  norm_num [degenerateParams]

theorem calculateSimulations_degenerate :
    calculateSimulations degenerateParams =
      [fundEntry degenerateParams, poupEntry degenerateParams,
        cdbEntry degenerateParams, lciEntry degenerateParams,
        preEntry degenerateParams, ipcaEntry degenerateParams] := by
  rw [calculateSimulations_eq]
  have hc : ¬(0 : ℝ) < degenerateParams.comparisonFund12MonthReturn := by
    norm_num [degenerateParams]
  rw [if_neg hc]
  simp only [List.append_nil, List.nil_append, List.cons_append]
  norm_num [sortByNetTotalDesc, List.foldl_cons, List.foldl_nil, insertDesc,
    cdb_net_degenerate, lci_net_degenerate, pre_net_degenerate,
    ipca_net_degenerate, poup_net_degenerate]

theorem mem_others_isUserFund (p : SimulationParams) {r : SimulationResult}
    (hr : r ∈ [cdbEntry p, lciEntry p, preEntry p, ipcaEntry p] ++
      (if 0 < p.comparisonFund12MonthReturn then [compEntry p] else []) ++
      [poupEntry p]) : r.isUserFund = false := by
  by_cases hc : 0 < p.comparisonFund12MonthReturn <;>
    simp only [hc, if_true, if_false, List.mem_append, List.mem_cons,
      List.mem_singleton, List.not_mem_nil, or_false] at hr
  · rcases hr with ((rfl | rfl | rfl | rfl) | rfl) | rfl
    · exact cdbEntry_isUserFund p
    · exact lciEntry_isUserFund p
    · exact preEntry_isUserFund p
    · exact ipcaEntry_isUserFund p
    · exact compEntry_isUserFund p
    · exact poupEntry_isUserFund p
  · rcases hr with (rfl | rfl | rfl | rfl) | rfl
    · exact cdbEntry_isUserFund p
    · exact lciEntry_isUserFund p
    · exact preEntry_isUserFund p
    · exact ipcaEntry_isUserFund p
    · exact poupEntry_isUserFund p

/-- C5 (amended): every simulation run's result list begins with the single
entry flagged as the user's fund, regardless of its net total relative to the
others, and all remaining entries follow in non-increasing (descending, with
possible ties) order of net total. -/
theorem resultOrdering_userFirst (p : SimulationParams) :
    (calculateSimulations p).head? = some (fundEntry p) ∧
    (fundEntry p).isUserFund = true ∧
    (calculateSimulations p).countP (fun r => r.isUserFund) = 1 ∧
    (∀ r ∈ (calculateSimulations p).tail, r.isUserFund = false) ∧
    List.Chain' (fun a b => b.netTotal ≤ a.netTotal) (calculateSimulations p).tail := by
  rw [calculateSimulations_eq]
  refine ⟨rfl, fundEntry_isUserFund p, ?_, ?_, ?_⟩
  · rw [List.countP_cons]
    have h0 : (sortByNetTotalDesc
        ([cdbEntry p, lciEntry p, preEntry p, ipcaEntry p] ++
          (if 0 < p.comparisonFund12MonthReturn then [compEntry p] else []) ++
          [poupEntry p])).countP (fun r => r.isUserFund) = 0 := by
      rw [List.countP_eq_zero]
      intro a ha
      rw [mem_sortByNetTotalDesc] at ha
      simp [mem_others_isUserFund p ha]
    rw [h0]
    simp [fundEntry_isUserFund]
  · intro r hr
    rw [List.tail_cons, mem_sortByNetTotalDesc] at hr
    exact mem_others_isUserFund p hr
  · rw [List.tail_cons]
    exact (sortByNetTotalDesc_pairwise _).chain'

theorem resultOrdering_userFirst_witness :
    (poupEntry degenerateParams).isUserFund = false :=
  (resultOrdering_userFirst degenerateParams).2.2.2.1 (poupEntry degenerateParams)
    (by rw [calculateSimulations_degenerate]; simp)

/-- C5 counterexample: on the all-zero-rate one-month compound run the CDB
and LCI entries tie at net total 100, so the non-user entries are NOT in
strictly descending net-total order. -/
theorem resultOrdering_strict_refuted :
    ¬ List.Chain' (fun a b => b.netTotal < a.netTotal)
        (calculateSimulations degenerateParams).tail := by
  rw [calculateSimulations_degenerate]
  intro h
  simp only [List.tail_cons, List.chain'_cons] at h
  obtain ⟨-, h2, -⟩ := h
  rw [cdb_net_degenerate, lci_net_degenerate] at h2
  exact absurd h2 (by norm_num)

/-- C6 counterexample: with the peer-fund trailing return positive (the
app-default parameters) the result list has 7 entries, not the 8 the claim
asserts. -/
theorem resultList_count_refuted :
    0 < scenarioParams.comparisonFund12MonthReturn ∧
    (calculateSimulations scenarioParams).length ≠ 8 := by
  constructor
  · norm_num [scenarioParams]
  · rw [calculateSimulations_length]
    norm_num [scenarioParams]

theorem map_range_getLast {α : Type} (f : ℕ → α) (n : ℕ) :
    ((List.range (n + 1)).map f).getLast? = some (f n) := by
  rw [List.range_succ, List.map_append]
  simp

theorem map_range_head {α : Type} (f : ℕ → α) (n : ℕ) :
    ((List.range (n + 1)).map f).head? = some (f 0) := by
  rw [List.range_succ_eq_map]
  rfl

theorem payout_evolution_getLast (P r : ℝ) (hasTax : Bool) (N : ℕ) :
    (calculateWithMonthlyPayout P r hasTax N).evolution.getLast? =
      some ⟨N, (calculateWithMonthlyPayout P r hasTax N).netTotal⟩ := by
  show (payoutLoop P r hasTax N).evolution.getLast? =
    some ⟨N, P + (payoutLoop P r hasTax N).totalNetProfit⟩
  rw [payoutLoop_evolution, payoutLoop_totalNetProfit, map_range_getLast]

theorem compoundPoint_zero (P r : ℝ) (hasTax : Bool) :
    compoundPoint P r hasTax 0 = ⟨0, P⟩ := by
  cases hasTax <;> simp [compoundPoint]

theorem calculateCompoundEvolution_eq_map (P r : ℝ) (hasTax : Bool) (N : ℕ) :
    calculateCompoundEvolution P r hasTax N =
      (List.range (N + 1)).map (compoundPoint P r hasTax) := by
  rw [calculateCompoundEvolution, List.range_succ_eq_map, List.map_cons,
    compoundPoint_zero, List.map_map]
  rfl

theorem compoundEvolution_getLast (P r : ℝ) (hasTax : Bool) (N : ℕ) :
    (calculateCompoundEvolution P r hasTax N).getLast? =
      some (compoundPoint P r hasTax N) := by
  rw [calculateCompoundEvolution_eq_map, map_range_getLast]

theorem payout_noTax_netTotal_eq_grossTotal (P r : ℝ) (N : ℕ) :
    (calculateWithMonthlyPayout P r false N).netTotal =
      (calculateWithMonthlyPayout P r false N).grossTotal := by
  show P + (payoutLoop P r false N).totalNetProfit =
    P + (payoutLoop P r false N).totalGrossProfit
  rw [payoutLoop_totalNetProfit, payoutLoop_totalGrossProfit]
  unfold netProfitSum
  congr 1
  refine Finset.sum_congr rfl (fun k _ => ?_)
  simp [monthNetProfit, monthTaxRate]

theorem mem_calculateSimulations {p : SimulationParams} {r : SimulationResult} :
    r ∈ calculateSimulations p ↔ r ∈ buildResults p := by
  rw [calculateSimulations_eq, List.mem_cons, mem_sortByNetTotalDesc]
  simp only [buildResults, List.mem_append, List.mem_cons, List.mem_singleton,
    List.not_mem_nil, or_false]
  tauto

theorem fundEntry_evolution_last (p : SimulationParams) :
    (fundEntry p).evolutionData.getLast? = some ⟨p.months, (fundEntry p).netTotal⟩ := by
  by_cases h : p.globalPayoutMonthly
  · simp only [fundEntry, h, if_true]
    exact payout_evolution_getLast _ _ _ _
  · simp only [fundEntry, h, Bool.false_eq_true, if_false]
    rw [compoundEvolution_getLast]
    simp [compoundPoint]

theorem cdbEntry_evolution_last (p : SimulationParams) :
    (cdbEntry p).evolutionData.getLast? = some ⟨p.months, (cdbEntry p).netTotal⟩ := by
  by_cases h : p.globalPayoutMonthly
  · simp only [cdbEntry, h, if_true]
    exact payout_evolution_getLast _ _ _ _
  · simp only [cdbEntry, h, Bool.false_eq_true, if_false]
    rw [compoundEvolution_getLast]
    simp [compoundPoint]

theorem lciEntry_evolution_last (p : SimulationParams) :
    (lciEntry p).evolutionData.getLast? = some ⟨p.months, (lciEntry p).netTotal⟩ := by
  by_cases h : p.globalPayoutMonthly
  · simp only [lciEntry, h, if_true]
    exact payout_evolution_getLast _ _ _ _
  · simp only [lciEntry, h, Bool.false_eq_true, if_false]
    rw [compoundEvolution_getLast]
    simp [compoundPoint]

theorem preEntry_evolution_last (p : SimulationParams) :
    (preEntry p).evolutionData.getLast? = some ⟨p.months, (preEntry p).netTotal⟩ := by
  by_cases h : p.globalPayoutMonthly
  · simp only [preEntry, h, if_true]
    exact payout_evolution_getLast _ _ _ _
  · simp only [preEntry, h, Bool.false_eq_true, if_false]
    rw [compoundEvolution_getLast]
    simp [compoundPoint]

theorem ipcaEntry_evolution_last (p : SimulationParams) :
    (ipcaEntry p).evolutionData.getLast? = some ⟨p.months, (ipcaEntry p).netTotal⟩ := by
  by_cases h : p.globalPayoutMonthly
  · simp only [ipcaEntry, h, if_true]
    exact payout_evolution_getLast _ _ _ _
  · simp only [ipcaEntry, h, Bool.false_eq_true, if_false]
    rw [compoundEvolution_getLast]
    simp [compoundPoint]

theorem compEntry_evolution_last (p : SimulationParams) :
    (compEntry p).evolutionData.getLast? = some ⟨p.months, (compEntry p).netTotal⟩ := by
  by_cases h : p.globalPayoutMonthly
  · simp only [compEntry, h, if_true]
    exact payout_evolution_getLast _ _ _ _
  · simp only [compEntry, h, Bool.false_eq_true, if_false]
    rw [compoundEvolution_getLast]
    simp [compoundPoint]

theorem poupEntry_evolution_last (p : SimulationParams) :
    (poupEntry p).evolutionData.getLast? = some ⟨p.months, (poupEntry p).netTotal⟩ := by
  by_cases h : p.globalPayoutMonthly
  · simp only [poupEntry, h, if_true]
    rw [payout_evolution_getLast, payout_noTax_netTotal_eq_grossTotal]
  · simp only [poupEntry, h, Bool.false_eq_true, if_false]
    rw [compoundEvolution_getLast]
    simp [compoundPoint]

/-- C10: for every instrument and in both accrual modes, the value of the
last evolution point (month N) equals the instrument's reported netTotal —
in distributed mode the month-N value is principal plus the accumulated net
profit, and in compound mode the month-N chart approximation (gross minus
tax at the bracket for N × 30 days) coincides with the authoritative
maturity taxation. -/
theorem evolution_lastPoint_netTotal (p : SimulationParams) :
    ∀ r ∈ calculateSimulations p,
      r.evolutionData.getLast? = some ⟨p.months, r.netTotal⟩ := by
  intro r hr
  rw [mem_calculateSimulations] at hr
  by_cases hc : 0 < p.comparisonFund12MonthReturn <;>
    simp only [buildResults, hc, if_true, if_false, List.mem_append, List.mem_cons,
      List.mem_singleton, List.not_mem_nil, or_false] at hr
  · rcases hr with ((rfl | rfl | rfl | rfl | rfl) | rfl) | rfl
    · exact fundEntry_evolution_last p
    · exact cdbEntry_evolution_last p
    · exact lciEntry_evolution_last p
    · exact preEntry_evolution_last p
    · exact ipcaEntry_evolution_last p
    · exact compEntry_evolution_last p
    · exact poupEntry_evolution_last p
  · rcases hr with (rfl | rfl | rfl | rfl | rfl) | rfl
    · exact fundEntry_evolution_last p
    · exact cdbEntry_evolution_last p
    · exact lciEntry_evolution_last p
    · exact preEntry_evolution_last p
    · exact ipcaEntry_evolution_last p
    · exact poupEntry_evolution_last p

theorem evolution_lastPoint_netTotal_witness :
    (fundEntry degenerateParams).evolutionData.getLast? =
      some ⟨degenerateParams.months, (fundEntry degenerateParams).netTotal⟩ :=
  evolution_lastPoint_netTotal degenerateParams (fundEntry degenerateParams)
    (by rw [calculateSimulations_degenerate]; simp)

theorem annualToMonthlyCompound_nonneg {a : ℝ} (ha : 0 ≤ a) :
    0 ≤ annualToMonthlyCompound a := by
  unfold annualToMonthlyCompound
  have h1 : (1 : ℝ) ≤ 1 + a / 100 := by linarith
  have h2 := Real.one_le_rpow h1 (by norm_num : (0 : ℝ) ≤ 1 / 12)
  linarith

theorem netProfitSum_mono_step (P r : ℝ) (hP : 0 ≤ P) (hr : 0 ≤ r)
    (hasTax : Bool) (m : ℕ) :
    P + netProfitSum P r hasTax m ≤ P + netProfitSum P r hasTax (m + 1) := by
  have hstep : netProfitSum P r hasTax (m + 1) =
      netProfitSum P r hasTax m + monthNetProfit P r hasTax (m + 1) := by
    rw [netProfitSum, Finset.sum_range_succ]
    rfl
  have hpos : 0 ≤ monthNetProfit P r hasTax (m + 1) := by
    rw [monthNetProfit]
    have hτ1 := monthTaxRate_le_one hasTax ((m + 1) * 30)
    have hτ0 := monthTaxRate_nonneg hasTax ((m + 1) * 30)
    have hPr : 0 ≤ P * r := mul_nonneg hP hr
    nlinarith
  linarith [hstep]

theorem compoundPoint_value_mono (P r : ℝ) (hP : 0 ≤ P) (hr : 0 ≤ r)
    (hasTax : Bool) (m : ℕ) :
    (compoundPoint P r hasTax m).value ≤ (compoundPoint P r hasTax (m + 1)).value := by
  have h1r : (1 : ℝ) ≤ 1 + r := by linarith
  have hg : (1 + r) ^ m ≤ (1 + r) ^ (m + 1) := pow_le_pow_right₀ h1r (Nat.le_succ m)
  have hg1 : (1 : ℝ) ≤ (1 + r) ^ m := one_le_pow₀ h1r
  cases hasTax
  · simp only [compoundPoint, Bool.false_eq_true, if_false, sub_zero]
    exact mul_le_mul_of_nonneg_left hg hP
  · simp only [compoundPoint, if_true]
    have ht : getTaxRate ((m + 1) * 30) ≤ getTaxRate (m * 30) :=
      getTaxRate_antitone (by omega)
    have ht1 : getTaxRate (m * 30) ≤ 1 := getTaxRate_le_one _
    have ht2 : 0 ≤ getTaxRate ((m + 1) * 30) := getTaxRate_nonneg _
    have ht2' : getTaxRate ((m + 1) * 30) ≤ 1 := getTaxRate_le_one _
    have hPg : P ≤ P * (1 + r) ^ m := by nlinarith
    have hgg : P * (1 + r) ^ m ≤ P * (1 + r) ^ (m + 1) :=
      mul_le_mul_of_nonneg_left hg hP
    nlinarith [mul_nonneg (sub_nonneg.2 hgg) (sub_nonneg.2 ht2'),
      mul_nonneg (sub_nonneg.2 hPg) (sub_nonneg.2 ht)]

theorem chain'_map_range {α : Type} (f : ℕ → α) (v : α → ℝ) (N : ℕ)
    (hmono : ∀ m, v (f m) ≤ v (f (m + 1))) :
    List.Chain' (fun a b => v a ≤ v b) ((List.range (N + 1)).map f) := by
  rw [List.chain'_map, List.chain'_range_succ]
  intro m _
  exact hmono m

theorem map_month_of_range (f : ℕ → EvolutionPoint) (hf : ∀ m, (f m).month = m)
    (N : ℕ) :
    ((List.range (N + 1)).map f).map EvolutionPoint.month = List.range (N + 1) := by
  rw [List.map_map]
  have h : EvolutionPoint.month ∘ f = id := funext hf
  rw [h, List.map_id]

theorem payout_evolution_props (P r : ℝ) (hasTax : Bool) (N : ℕ)
    (hP : 0 ≤ P) (hr : 0 ≤ r) :
    (calculateWithMonthlyPayout P r hasTax N).evolution.map EvolutionPoint.month =
        List.range (N + 1) ∧
      (calculateWithMonthlyPayout P r hasTax N).evolution.head? = some ⟨0, P⟩ ∧
      List.Chain' (fun a b => a.value ≤ b.value)
        (calculateWithMonthlyPayout P r hasTax N).evolution := by
  show (payoutLoop P r hasTax N).evolution.map EvolutionPoint.month = _ ∧
    (payoutLoop P r hasTax N).evolution.head? = _ ∧
    List.Chain' _ (payoutLoop P r hasTax N).evolution
  rw [payoutLoop_evolution]
  refine ⟨map_month_of_range _ (fun m => rfl) N, ?_, ?_⟩
  · rw [map_range_head]
    simp [netProfitSum]
  · exact chain'_map_range _ EvolutionPoint.value N
      (fun m => netProfitSum_mono_step P r hP hr hasTax m)

theorem compound_evolution_props (P r : ℝ) (hasTax : Bool) (N : ℕ)
    (hP : 0 ≤ P) (hr : 0 ≤ r) :
    (calculateCompoundEvolution P r hasTax N).map EvolutionPoint.month =
        List.range (N + 1) ∧
      (calculateCompoundEvolution P r hasTax N).head? = some ⟨0, P⟩ ∧
      List.Chain' (fun a b => a.value ≤ b.value)
        (calculateCompoundEvolution P r hasTax N) := by
  rw [calculateCompoundEvolution_eq_map]
  refine ⟨map_month_of_range _ (fun m => rfl) N, ?_, ?_⟩
  · rw [map_range_head, compoundPoint_zero]
  · exact chain'_map_range _ EvolutionPoint.value N
      (fun m => compoundPoint_value_mono P r hP hr hasTax m)

/-- C9 (amended): for every instrument in either accrual mode — under
non-negative principal and non-negative contracted rates — the evolution
series contains exactly one point per month 0..N in increasing month order,
the month-0 point's value equals the principal, and the point values are
monotonic (non-decreasing) in the month index. -/
theorem evolution_series_shape (p : SimulationParams)
    (hP : 0 ≤ p.principal) (hf : 0 ≤ p.fundRateMonthly) (hcdi : 0 ≤ p.cdiAnnual)
    (hcdb : 0 ≤ p.cdbPercentOfCDI) (hlci : 0 ≤ p.lciPercentOfCDI)
    (hpre : 0 ≤ p.preFixedAnnual) (hipca : 0 ≤ p.ipcaAnnual)
    (hspread : 0 ≤ p.ipcaPlusAnnual) :
    ∀ r ∈ calculateSimulations p,
      r.evolutionData.map EvolutionPoint.month = List.range (p.months + 1) ∧
      r.evolutionData.head? = some ⟨0, p.principal⟩ ∧
      List.Chain' (fun a b => a.value ≤ b.value) r.evolutionData := by
  have hfund : 0 ≤ p.fundRateMonthly / 100 := div_nonneg hf (by norm_num)
  have hcdirate : 0 ≤ annualToMonthlyCompound p.cdiAnnual :=
    annualToMonthlyCompound_nonneg hcdi
  have hcdbrate : 0 ≤ annualToMonthlyCompound p.cdiAnnual * (p.cdbPercentOfCDI / 100) :=
    mul_nonneg hcdirate (div_nonneg hcdb (by norm_num))
  have hlcirate : 0 ≤ annualToMonthlyCompound p.cdiAnnual * (p.lciPercentOfCDI / 100) :=
    mul_nonneg hcdirate (div_nonneg hlci (by norm_num))
  have hprerate : 0 ≤ annualToMonthlyCompound p.preFixedAnnual :=
    annualToMonthlyCompound_nonneg hpre
  have hipcarate :
      0 ≤ annualToMonthlyCompound p.ipcaAnnual + p.ipcaPlusAnnual / 100 / 12 := by
    have h1 := annualToMonthlyCompound_nonneg hipca
    have h2 : 0 ≤ p.ipcaPlusAnnual / 100 / 12 := by positivity
    linarith
  have hpouprate : (0 : ℝ) ≤ 0.005 + 0.0017 := by norm_num
  have Hfund : (fundEntry p).evolutionData.map EvolutionPoint.month =
        List.range (p.months + 1) ∧
      (fundEntry p).evolutionData.head? = some ⟨0, p.principal⟩ ∧
      List.Chain' (fun a b => a.value ≤ b.value) (fundEntry p).evolutionData := by
    by_cases hm : p.globalPayoutMonthly
    · simp only [fundEntry, hm, if_true]
      exact payout_evolution_props _ _ true p.months hP hfund
    · simp only [fundEntry, hm, Bool.false_eq_true, if_false]
      exact compound_evolution_props _ _ true p.months hP hfund
  have Hcdb : (cdbEntry p).evolutionData.map EvolutionPoint.month =
        List.range (p.months + 1) ∧
      (cdbEntry p).evolutionData.head? = some ⟨0, p.principal⟩ ∧
      List.Chain' (fun a b => a.value ≤ b.value) (cdbEntry p).evolutionData := by
    by_cases hm : p.globalPayoutMonthly
    · simp only [cdbEntry, hm, if_true]
      exact payout_evolution_props _ _ true p.months hP hcdbrate
    · simp only [cdbEntry, hm, Bool.false_eq_true, if_false]
      exact compound_evolution_props _ _ true p.months hP hcdbrate
  have Hlci : (lciEntry p).evolutionData.map EvolutionPoint.month =
        List.range (p.months + 1) ∧
      (lciEntry p).evolutionData.head? = some ⟨0, p.principal⟩ ∧
      List.Chain' (fun a b => a.value ≤ b.value) (lciEntry p).evolutionData := by
    by_cases hm : p.globalPayoutMonthly
    · simp only [lciEntry, hm, if_true]
      exact payout_evolution_props _ _ false p.months hP hlcirate
    · simp only [lciEntry, hm, Bool.false_eq_true, if_false]
      exact compound_evolution_props _ _ false p.months hP hlcirate
  have Hpre : (preEntry p).evolutionData.map EvolutionPoint.month =
        List.range (p.months + 1) ∧
      (preEntry p).evolutionData.head? = some ⟨0, p.principal⟩ ∧
      List.Chain' (fun a b => a.value ≤ b.value) (preEntry p).evolutionData := by
    by_cases hm : p.globalPayoutMonthly
    · simp only [preEntry, hm, if_true]
      exact payout_evolution_props _ _ true p.months hP hprerate
    · simp only [preEntry, hm, Bool.false_eq_true, if_false]
      exact compound_evolution_props _ _ true p.months hP hprerate
  have Hipca : (ipcaEntry p).evolutionData.map EvolutionPoint.month =
        List.range (p.months + 1) ∧
      (ipcaEntry p).evolutionData.head? = some ⟨0, p.principal⟩ ∧
      List.Chain' (fun a b => a.value ≤ b.value) (ipcaEntry p).evolutionData := by
    by_cases hm : p.globalPayoutMonthly
    · simp only [ipcaEntry, hm, if_true]
      exact payout_evolution_props _ _ true p.months hP hipcarate
    · simp only [ipcaEntry, hm, Bool.false_eq_true, if_false]
      exact compound_evolution_props _ _ true p.months hP hipcarate
  have Hpoup : (poupEntry p).evolutionData.map EvolutionPoint.month =
        List.range (p.months + 1) ∧
      (poupEntry p).evolutionData.head? = some ⟨0, p.principal⟩ ∧
      List.Chain' (fun a b => a.value ≤ b.value) (poupEntry p).evolutionData := by
    by_cases hm : p.globalPayoutMonthly
    · simp only [poupEntry, hm, if_true]
      exact payout_evolution_props _ _ false p.months hP hpouprate
    · simp only [poupEntry, hm, Bool.false_eq_true, if_false]
      exact compound_evolution_props _ _ false p.months hP hpouprate
  intro r hr
  rw [mem_calculateSimulations] at hr
  by_cases hc : 0 < p.comparisonFund12MonthReturn <;>
    simp only [buildResults, hc, if_true, if_false, List.mem_append, List.mem_cons,
      List.mem_singleton, List.not_mem_nil, or_false] at hr
  · have hcomprate :
        0 ≤ (1 + p.comparisonFund12MonthReturn / 100) ^ ((1 : ℝ) / 12) - 1 := by
      have h1 : (1 : ℝ) ≤ 1 + p.comparisonFund12MonthReturn / 100 := by linarith
      have h2 := Real.one_le_rpow h1 (by norm_num : (0 : ℝ) ≤ 1 / 12)
      linarith
    have Hcomp : (compEntry p).evolutionData.map EvolutionPoint.month =
          List.range (p.months + 1) ∧
        (compEntry p).evolutionData.head? = some ⟨0, p.principal⟩ ∧
        List.Chain' (fun a b => a.value ≤ b.value) (compEntry p).evolutionData := by
      by_cases hm : p.globalPayoutMonthly
      · simp only [compEntry, hm, if_true]
        exact payout_evolution_props _ _ true p.months hP hcomprate
      · simp only [compEntry, hm, Bool.false_eq_true, if_false]
        exact compound_evolution_props _ _ true p.months hP hcomprate
    rcases hr with ((rfl | rfl | rfl | rfl | rfl) | rfl) | rfl
    · exact Hfund
    · exact Hcdb
    · exact Hlci
    · exact Hpre
    · exact Hipca
    · exact Hcomp
    · exact Hpoup
  · rcases hr with (rfl | rfl | rfl | rfl | rfl) | rfl
    · exact Hfund
    · exact Hcdb
    · exact Hlci
    · exact Hpre
    · exact Hipca
    · exact Hpoup

theorem evolution_series_shape_witness :
    (fundEntry degenerateParams).evolutionData.head? =
      some ⟨0, degenerateParams.principal⟩ :=
  (evolution_series_shape degenerateParams
    (by norm_num [degenerateParams]) (by norm_num [degenerateParams])
    (by norm_num [degenerateParams]) (by norm_num [degenerateParams])
    (by norm_num [degenerateParams]) (by norm_num [degenerateParams])
    (by norm_num [degenerateParams]) (by norm_num [degenerateParams])
    (fundEntry degenerateParams)
    (by rw [calculateSimulations_degenerate]; simp)).2.1

theorem fundEntry_compound_evolution (p : SimulationParams)
    (h : p.globalPayoutMonthly = false) :
    (fundEntry p).evolutionData =
      calculateCompoundEvolution p.principal (p.fundRateMonthly / 100) true
        p.months := by
  simp only [fundEntry, h, Bool.false_eq_true, if_false]

/-- A parameter set with a monthly rate of −300% for the user fund: the code
accepts it and produces an oscillating compound-mode evolution series. -/
noncomputable def wildParams : SimulationParams :=
  { principal := 100
    months := 2
    cdiAnnual := 0
    ipcaAnnual := 0
    fundRateMonthly := -300
    cdbPercentOfCDI := 0
    lciPercentOfCDI := 0
    preFixedAnnual := 0
    ipcaPlusAnnual := 0
    comparisonFund12MonthReturn := 0
    globalPayoutMonthly := false }

/-- C9 counterexample: with a (wild but accepted) monthly rate of −300% the
user fund's compound evolution series is 100, −132.5, 332.5 — monotonic in
neither direction, refuting the unconditional monotonicity claim. -/
theorem evolution_monotonic_refuted :
    ¬ List.Chain' (fun a b => a.value ≤ b.value) (fundEntry wildParams).evolutionData ∧
    ¬ List.Chain' (fun a b => b.value ≤ a.value)
        (fundEntry wildParams).evolutionData := by
  rw [fundEntry_compound_evolution wildParams rfl]
  have hev : calculateCompoundEvolution wildParams.principal
      (wildParams.fundRateMonthly / 100) true wildParams.months =
      [⟨0, 100⟩, ⟨1, -132.5⟩, ⟨2, 332.5⟩] := by
    show calculateCompoundEvolution 100 (-300 / 100) true 2 = _
    rw [calculateCompoundEvolution]
    norm_num [List.range_succ, compoundPoint, getTaxRate]
  rw [hev]
  constructor <;> intro h <;>
    simp only [List.chain'_cons, List.chain'_singleton, and_true] at h
  · obtain ⟨h1, -⟩ := h
    norm_num at h1
  · obtain ⟨-, h2⟩ := h
    norm_num at h2

end ComparaInvest
